import Mathlib

/-!
# Ratmas bot — pairing generation and event state-machine engine

Shallow embedding of the core of the `ratmas-bot` repository:

* `src/services/rat.service.helpers.ts` — `validateStatusTransition`,
  `shuffleArray`, `generateId`;
* `src/services/rat.service.operations.ts` — `createPairings`,
  `notifyAllPairings`;
* `src/services/rat.service.ts` — the `RatService` façade
  (`createEvent`, `updateEventStatus`, `addParticipant`,
  `removeParticipant`, `generatePairings`, `notifyPairings`);
* `src/repositories/ratmas.repository.ts` — the Prisma-backed
  repository, modelled as explicit state passing over lists of rows;
* `src/match.ts` — the standalone `derangement` function.

Conventions of the embedding:

* ids produced by the database or by `generateId()` (a timestamp plus a
  random suffix) are opaque strings; since they are nondeterministic they
  are supplied as explicit parameters (`newId`) where the code generates
  them;
* `Date` timestamps are natural numbers (milliseconds);
* `Math.random()`-driven choices are supplied as explicit functions
  (`rand`, or an abstract `shuffleFn`, exactly as `createPairings`
  already receives its shuffle as a parameter in the source);
* the chat-platform collaborator `sendDirectMessage` is modelled as a
  function `deliver : String → Bool` from the target user id to the
  success flag of this invocation's attempt;
* thrown `Error`s become `Except String`; the persistent store becomes a
  `RepoState` record threaded through the operations.
-/

/-- Decidable equality for `Except`, so that concrete runs of the fallible
operations can be checked by `decide`. -/
instance {ε α : Type} [DecidableEq ε] [DecidableEq α] :
    DecidableEq (Except ε α) := fun a b =>
  match a, b with
  | Except.ok x, Except.ok y =>
    if h : x = y then isTrue (by rw [h]) else
      isFalse (fun hc => h (by cases hc; rfl))
  | Except.ok _, Except.error _ => isFalse (fun hc => Except.noConfusion hc)
  | Except.error _, Except.ok _ => isFalse (fun hc => Except.noConfusion hc)
  | Except.error x, Except.error y =>
    if h : x = y then isTrue (by rw [h]) else
      isFalse (fun hc => h (by cases hc; rfl))

namespace Ratmas

/-- `RatmasEventStatus` from `src/types/ratmas.types.ts`. -/
inductive RatmasEventStatus where
  | OPEN
  | LOCKED
  | MATCHED
  | NOTIFIED
  | COMPLETED
  | CANCELLED
deriving DecidableEq, Repr, Inhabited, Fintype

open RatmasEventStatus

/-- The string value of each enum member (`'open'`, `'locked'`, ...). -/
def statusName : RatmasEventStatus → String
  | OPEN => "open"
  | LOCKED => "locked"
  | MATCHED => "matched"
  | NOTIFIED => "notified"
  | COMPLETED => "completed"
  | CANCELLED => "cancelled"

/-- `RatmasEventConfig` from `src/types/ratmas.types.ts` (the fields the
repository actually persists: `createEvent` in `ratmas.repository.ts` stores
`ratmasRoleId`, the three dates, `timezone` and `announcementChannelId`). -/
structure RatmasEventConfig where
  ratmasRoleId : String
  eventStartDate : Nat
  purchaseDeadline : Nat
  revealDate : Nat
  timezone : String
  announcementChannelId : Option String
deriving DecidableEq, Repr, Inhabited

/-- `RatmasEvent` from `src/types/ratmas.types.ts` (sans timestamps, which
no core operation reads). -/
structure RatmasEvent where
  id : String
  guildId : String
  status : RatmasEventStatus
  config : RatmasEventConfig
deriving DecidableEq, Repr, Inhabited

/-- `RatmasParticipant` from `src/types/ratmas.types.ts` (sans timestamps). -/
structure RatmasParticipant where
  id : String
  eventId : String
  userId : String
  guildId : String
  displayName : String
  wishlistUrl : Option String
deriving DecidableEq, Repr, Inhabited

/-- `RatmasPairing` from `src/types/ratmas.types.ts` (sans `createdAt`;
`notifiedAt` is an optional timestamp). -/
structure RatmasPairing where
  id : String
  eventId : String
  santaId : String
  recipientId : String
  notifiedAt : Option Nat
deriving DecidableEq, Repr, Inhabited

/-- `CreateEventOptions` from `src/types/ratmas.types.ts`. -/
structure CreateEventOptions where
  guildId : String
  ratmasRoleId : String
  eventStartDate : Nat
  purchaseDeadline : Nat
  revealDate : Nat
  eventEndDate : Nat
  timezone : String
  announcementChannelId : Option String
deriving DecidableEq, Repr, Inhabited

/-- `PairingResult` from `src/types/ratmas.types.ts`. -/
structure PairingResult where
  success : Bool
  pairingsCreated : Nat
  error : Option String
deriving DecidableEq, Repr, Inhabited

/-- `validateStatusTransition`'s transition table
(`rat.service.helpers.ts`): the `validTransitions` record. -/
def validTransitions : RatmasEventStatus → List RatmasEventStatus
  | OPEN => [LOCKED, CANCELLED]
  | LOCKED => [MATCHED, OPEN, CANCELLED]
  | MATCHED => [NOTIFIED, CANCELLED]
  | NOTIFIED => [COMPLETED, CANCELLED]
  | COMPLETED => []
  | CANCELLED => []

/-- `validateStatusTransition` from `rat.service.helpers.ts`: throws
(`.error`) unless `newStatus` is in the allowed list for `currentStatus`. -/
def validateStatusTransition (currentStatus newStatus : RatmasEventStatus) :
    Except String Unit :=
  if (validTransitions currentStatus).contains newStatus then
    Except.ok ()
  else
    Except.error ("Invalid status transition from " ++ statusName currentStatus
      ++ " to " ++ statusName newStatus)

/-- `shuffleArray` from `rat.service.helpers.ts`: Fisher–Yates. One swap
step: for index `i` (from `length - 1` down to `1`) swap positions `i` and
`j` where `j = Math.floor(Math.random() * (i + 1))`; the random draw is
supplied as `rand : Nat → Nat`, reduced mod `i + 1` exactly as the
`floor(random * (i+1))` expression always lands in `[0, i]`. -/
def swapAt (l : List α) (i j : Nat) : List α :=
  match l.get? i, l.get? j with
  | some a, some b => (l.set i b).set j a
  | _, _ => l

/-- The descending Fisher–Yates loop of `shuffleArray`, peeled off from
index `i` down to `1`. -/
def fisherYatesFrom (rand : Nat → Nat) : Nat → List α → List α
  | 0, l => l
  | Nat.succ i, l => fisherYatesFrom rand i (swapAt l (i + 1) (rand (i + 1) % (i + 2)))

/-- `shuffleArray` from `rat.service.helpers.ts`. -/
def shuffleArray (rand : Nat → Nat) (array : List α) : List α :=
  fisherYatesFrom rand (array.length - 1) array

/-!
## Repository (`src/repositories/ratmas.repository.ts`)

The Prisma store is modelled as three lists of rows; each repository
method becomes a pure function on `RepoState`. `findFirst`/`findUnique`
become `List.find?`; `findMany where eventId` becomes `List.filter`;
`update where id` maps over the rows touching the matching id.
-/

/-- The persistent store behind `RatmasRepository`. -/
structure RepoState where
  events : List RatmasEvent
  participants : List RatmasParticipant
  pairings : List RatmasPairing
deriving DecidableEq, Repr, Inhabited

/-- `ACTIVE_STATUSES` from `ratmas.repository.ts`. -/
def ACTIVE_STATUSES : List RatmasEventStatus :=
  [OPEN, LOCKED, MATCHED, NOTIFIED]

/-- `RatmasRepository.findEventById`. -/
def findEventById (s : RepoState) (eventId : String) : Option RatmasEvent :=
  s.events.find? (fun e => e.id == eventId)

/-- `RatmasRepository.findActiveEventByGuild`: first stored event of the
guild whose status is in `ACTIVE_STATUSES`. -/
def findActiveEventByGuild (s : RepoState) (guildId : String) :
    Option RatmasEvent :=
  s.events.find? (fun e =>
    e.guildId == guildId && ACTIVE_STATUSES.contains e.status)

/-- `RatmasRepository.createEvent`: inserts a row with status `OPEN` and the
supplied config; the database-generated id is passed in as `newId`. -/
def repoCreateEvent (s : RepoState) (newId : String) (options : CreateEventOptions) :
    RatmasEvent × RepoState :=
  let event : RatmasEvent :=
    { id := newId
      guildId := options.guildId
      status := OPEN
      config :=
        { ratmasRoleId := options.ratmasRoleId
          eventStartDate := options.eventStartDate
          purchaseDeadline := options.purchaseDeadline
          revealDate := options.revealDate
          timezone := options.timezone
          announcementChannelId := options.announcementChannelId } }
  (event, { s with events := s.events ++ [event] })

/-- `RatmasRepository.updateEventStatus`: `update where id` writes the new
status on the matching row. -/
def repoUpdateEventStatus (s : RepoState) (eventId : String)
    (status : RatmasEventStatus) : RepoState :=
  { s with
    events := s.events.map (fun e =>
      if e.id == eventId then { e with status := status } else e) }

/-- `RatmasRepository.replacePairings`: delete every pairing of the event,
then insert the new batch (one transaction). -/
def replacePairings (s : RepoState) (eventId : String)
    (pairings : List RatmasPairing) : RepoState :=
  { s with
    pairings := s.pairings.filter (fun p => p.eventId != eventId) ++ pairings }

/-- `RatmasRepository.listPairingsForEvent`. -/
def listPairingsForEvent (s : RepoState) (eventId : String) :
    List RatmasPairing :=
  s.pairings.filter (fun p => p.eventId == eventId)

/-- `RatmasRepository.markPairingsNotified`: one `update where id` per entry
of the batch, all in one transaction. -/
def markPairingsNotified (s : RepoState)
    (updates : List (String × Nat)) : RepoState :=
  { s with
    pairings := s.pairings.map (fun p =>
      match updates.find? (fun u => u.1 == p.id) with
      | some u => { p with notifiedAt := some u.2 }
      | none => p) }

/-- `RatmasRepository.createParticipant`; the database-generated id is the
`newId` parameter. -/
def repoCreateParticipant (s : RepoState) (newId : String)
    (eventId userId guildId displayName : String)
    (wishlistUrl : Option String) : RatmasParticipant × RepoState :=
  let participant : RatmasParticipant :=
    { id := newId, eventId := eventId, userId := userId, guildId := guildId
      displayName := displayName, wishlistUrl := wishlistUrl }
  (participant, { s with participants := s.participants ++ [participant] })

/-- `RatmasRepository.deleteParticipant`. -/
def deleteParticipant (s : RepoState) (participantId : String) : RepoState :=
  { s with
    participants := s.participants.filter (fun p => p.id != participantId) }

/-- `RatmasRepository.findParticipantById`. -/
def findParticipantById (s : RepoState) (participantId : String) :
    Option RatmasParticipant :=
  s.participants.find? (fun p => p.id == participantId)

/-- `RatmasRepository.findParticipantByEventAndUser` (the
`eventId_userId` unique index). -/
def findParticipantByEventAndUser (s : RepoState) (eventId userId : String) :
    Option RatmasParticipant :=
  s.participants.find? (fun p => p.eventId == eventId && p.userId == userId)

/-- `RatmasRepository.listParticipants`. -/
def listParticipants (s : RepoState) (eventId : String) :
    List RatmasParticipant :=
  s.participants.filter (fun p => p.eventId == eventId)

/-!
## Service operations (`rat.service.operations.ts`)
-/

/-- `createPairings` from `rat.service.operations.ts`: shuffle a copy of the
participant list, then pair position `i`'s participant (Santa) with position
`(i + 1) % length`'s participant (Recipient). `generateId()` is the injected
`newId` supply (one fresh id per loop index). -/
def createPairings (eventId : String) (participants : List RatmasParticipant)
    (shuffleFn : List RatmasParticipant → List RatmasParticipant)
    (newId : Nat → String) : Except String (List RatmasPairing) :=
  if participants.length < 3 then
    Except.error ("Need at least 3 participants, found "
      ++ toString participants.length)
  else
    let shuffled := shuffleFn participants
    Except.ok ((List.range shuffled.length).map (fun i =>
      { id := newId i
        eventId := eventId
        santaId := (shuffled.getD i default).id
        recipientId := (shuffled.getD ((i + 1) % shuffled.length) default).id
        notifiedAt := none }))

/-- The `participantMap.get` lookup of `notifyAllPairings`: a JS `Map` built
from an entry list keeps the **last** entry for a duplicated key, hence the
reversed search. -/
def participantMapGet (participants : List RatmasParticipant) (pid : String) :
    Option RatmasParticipant :=
  participants.reverse.find? (fun p => p.id == pid)

/-- `notifyAllPairings` from `rat.service.operations.ts`: walk the pairings
in order; skip a pairing of another event, an already-notified pairing, or
one whose Santa or Recipient is missing from the participant map; otherwise
attempt the DM (`deliver` on the Santa's user id) and on success count it
and record `(pairing.id, now)`. Returns `(notifiedCount, notifiedPairings)`. -/
def notifyAllPairings (event : RatmasEvent) (pairings : List RatmasPairing)
    (participants : List RatmasParticipant) (deliver : String → Bool)
    (now : Nat) : Nat × List (String × Nat) :=
  match pairings with
  | [] => (0, [])
  | pairing :: rest =>
    let tail := notifyAllPairings event rest participants deliver now
    if pairing.eventId != event.id then tail
    else if pairing.notifiedAt.isSome then tail
    else
      match participantMapGet participants pairing.santaId,
            participantMapGet participants pairing.recipientId with
      | some santa, some _recipient =>
        if deliver santa.userId then
          (tail.1 + 1, (pairing.id, now) :: tail.2)
        else tail
      | _, _ => tail

/-!
## `RatService` façade (`rat.service.ts`)

Each method becomes a function `... → RepoState → Except String (α × RepoState)`
(`throw` = `.error`, in which case no repository write has happened).
-/

/-- `RatService.createEvent`: reject when the guild already has an active
event, validate the date ordering, then insert an `OPEN` event. -/
def createEvent (newId : String) (options : CreateEventOptions)
    (s : RepoState) : Except String (RatmasEvent × RepoState) :=
  match findActiveEventByGuild s options.guildId with
  | some existingEvent =>
    Except.error ("Guild already has active event (status: "
      ++ statusName existingEvent.status ++ ")")
  | none =>
    if options.purchaseDeadline ≤ options.eventStartDate then
      Except.error "Purchase deadline must be after event start date"
    else if options.revealDate ≤ options.purchaseDeadline then
      Except.error "Reveal date must be after purchase deadline"
    else if options.eventEndDate ≤ options.revealDate then
      Except.error "Event end date must be after the opening/reveal date"
    else
      Except.ok (repoCreateEvent s newId options)

/-- `RatService.updateEventStatus`: look the event up, validate the
transition, then write the status. -/
def updateEventStatus (eventId : String) (newStatus : RatmasEventStatus)
    (s : RepoState) : Except String (RatmasEvent × RepoState) :=
  match findEventById s eventId with
  | none => Except.error ("Event " ++ eventId ++ " not found")
  | some event =>
    match validateStatusTransition event.status newStatus with
    | Except.error e => Except.error e
    | Except.ok _ =>
      Except.ok ({ event with status := newStatus },
        repoUpdateEventStatus s eventId newStatus)

/-- `RatService.addParticipant`: event must exist and be `OPEN`, the
`(event, user)` pair must be new; then one participant row is created. -/
def addParticipant (newId : String) (eventId userId displayName : String)
    (wishlistUrl : Option String) (s : RepoState) :
    Except String (RatmasParticipant × RepoState) :=
  match findEventById s eventId with
  | none => Except.error ("Event " ++ eventId ++ " not found")
  | some event =>
    if event.status ≠ OPEN then
      Except.error ("Cannot add participants to event with status: "
        ++ statusName event.status)
    else
      match findParticipantByEventAndUser s eventId userId with
      | some _ => Except.error ("User " ++ userId ++ " is already a participant")
      | none =>
        Except.ok (repoCreateParticipant s newId eventId userId
          event.guildId displayName wishlistUrl)

/-- `RatService.removeParticipant`: event must exist and be `OPEN`, the
participant must exist; then its row is deleted. -/
def removeParticipant (eventId userId : String) (s : RepoState) :
    Except String RepoState :=
  match findEventById s eventId with
  | none => Except.error ("Event " ++ eventId ++ " not found")
  | some event =>
    if event.status ≠ OPEN then
      Except.error ("Cannot remove participants from event with status: "
        ++ statusName event.status)
    else
      match findParticipantByEventAndUser s eventId userId with
      | none => Except.error ("User " ++ userId ++ " is not a participant")
      | some participant => Except.ok (deleteParticipant s participant.id)

/-- `RatService.updateParticipant`: no status gate; applies only the fields
supplied (modelled as the two optional updates of
`UpdateParticipantOptions`). -/
def updateParticipant (participantId : String)
    (displayName : Option String) (wishlistUrl : Option (Option String))
    (s : RepoState) : Except String (RatmasParticipant × RepoState) :=
  match findParticipantById s participantId with
  | none => Except.error ("Participant " ++ participantId ++ " not found")
  | some _ =>
    let apply := fun (p : RatmasParticipant) =>
      if p.id == participantId then
        { p with
          displayName := displayName.getD p.displayName
          wishlistUrl := wishlistUrl.getD p.wishlistUrl }
      else p
    match (s.participants.map apply).find? (fun p => p.id == participantId) with
    | none => Except.error ("Participant " ++ participantId ++ " not found")
    | some updated =>
      Except.ok (updated, { s with participants := s.participants.map apply })

/-- `RatService.generatePairings`: event must exist and be `LOCKED` with at
least 3 participants; then build the cycle pairings, replace the event's
pairing set, and advance the event to `MATCHED`. -/
def generatePairings (shuffleFn : List RatmasParticipant → List RatmasParticipant)
    (newId : Nat → String) (eventId : String) (s : RepoState) :
    Except String (PairingResult × RepoState) :=
  match findEventById s eventId with
  | none =>
    Except.ok ({ success := false, pairingsCreated := 0
                 error := some "Event not found" }, s)
  | some event =>
    if event.status ≠ LOCKED then
      Except.ok ({ success := false, pairingsCreated := 0
                   error := some ("Cannot generate pairings for event with status: "
                     ++ statusName event.status) }, s)
    else
      let participants := listParticipants s eventId
      if participants.length < 3 then
        Except.ok ({ success := false, pairingsCreated := 0
                     error := some ("Need at least 3 participants, found "
                       ++ toString participants.length) }, s)
      else
        match createPairings eventId participants shuffleFn newId with
        | Except.error e => Except.error e
        | Except.ok newPairings =>
          let s1 := replacePairings s eventId newPairings
          match updateEventStatus eventId MATCHED s1 with
          | Except.error e => Except.error e
          | Except.ok (_, s2) =>
            Except.ok ({ success := true
                         pairingsCreated := newPairings.length
                         error := none }, s2)

/-- `RatService.notifyPairings`: event must exist and be `MATCHED`; run
`notifyAllPairings` over the event's pairings, persist the successes, and
advance to `NOTIFIED` when no pairing of a non-empty set remains
outstanding. Returns the number of DMs sent in this invocation. -/
def notifyPairings (deliver : String → Bool) (now : Nat) (eventId : String)
    (s : RepoState) : Except String (Nat × RepoState) :=
  match findEventById s eventId with
  | none => Except.error ("Event " ++ eventId ++ " not found")
  | some event =>
    if event.status ≠ MATCHED then
      Except.error ("Cannot notify pairings for event with status: "
        ++ statusName event.status)
    else
      let pairings := listPairingsForEvent s eventId
      let participants := listParticipants s eventId
      let outstandingPairings := pairings.filter (fun p => p.notifiedAt.isNone)
      let result := notifyAllPairings event pairings participants deliver now
      let s1 := if result.2.length > 0 then markPairingsNotified s result.2 else s
      let remainingOutstanding := outstandingPairings.length - result.2.length
      if pairings.length > 0 && remainingOutstanding == 0 then
        match updateEventStatus eventId NOTIFIED s1 with
        | Except.error e => Except.error e
        | Except.ok (_, s2) => Except.ok (result.1, s2)
      else
        Except.ok (result.1, s1)

/-!
## Standalone derangement (`src/match.ts`)
-/

/-- One Fisher–Yates attempt of `derangement` (`src/match.ts`): the inner
`for (let i = copy.length - 1; i > 0; i--)` loop over a copy of `arr`,
with the random draw for step `i` supplied by `rand i`. -/
def derangementAttempt [DecidableEq α] (rand : Nat → Nat) (arr : List α) :
    List α :=
  fisherYatesFrom rand (arr.length - 1) arr

/-- The retry loop of `derangement`: try up to `tries` shuffles (attempt
number `t` uses the draws `rand t`), returning the first one with no fixed
point against `arr`, else `none`. -/
def derangementLoop [DecidableEq α] (rand : Nat → Nat → Nat) (arr : List α) :
    Nat → Nat → Option (List α)
  | 0, _ => none
  | Nat.succ n, t =>
    let copy := derangementAttempt (rand t) arr
    if List.range arr.length |>.all
        (fun i => decide (copy.get? i ≠ arr.get? i)) then
      some copy
    else
      derangementLoop rand arr n (t + 1)

/-- `derangement` from `src/match.ts`: `null` (`none`) for lists of length
at most 1, otherwise up to `maxTries` (default 1000) shuffle-and-check
attempts, `none` when the bound is exhausted. -/
def derangement [DecidableEq α] (rand : Nat → Nat → Nat) (arr : List α)
    (maxTries : Nat := 1000) : Option (List α) :=
  if arr.length ≤ 1 then none
  else derangementLoop rand arr maxTries 0

/-!
## Derived characterizations

Decidable predicates, provably equal to what the loops of
`notifyAllPairings` and `notifyPairings` compute, used to state the
theorems below.
-/

/-- The pairing list `createPairings` builds from the shuffled order:
position `i` is Santa for position `(i + 1) % length`. -/
def cyclePairings (eventId : String) (newId : Nat → String)
    (shuffled : List RatmasParticipant) : List RatmasPairing :=
  (List.range shuffled.length).map (fun i =>
    { id := newId i
      eventId := eventId
      santaId := (shuffled.getD i default).id
      recipientId := (shuffled.getD ((i + 1) % shuffled.length) default).id
      notifiedAt := none })

/-- A pairing the `notifyAllPairings` loop attempts **and** delivers in this
invocation: it belongs to the event, is not yet notified, both ends resolve
in the participant map, and the DM send reports success. -/
def shouldNotify (event : RatmasEvent) (participants : List RatmasParticipant)
    (deliver : String → Bool) (p : RatmasPairing) : Bool :=
  p.eventId == event.id && p.notifiedAt.isNone &&
    (match participantMapGet participants p.santaId,
           participantMapGet participants p.recipientId with
     | some santa, some _ => deliver santa.userId
     | _, _ => false)

/-- The per-row effect of one `notifyPairings` run: a pairing satisfying `q`
gets `notifiedAt := now`, every other row is untouched. -/
def applyNotify (q : RatmasPairing → Bool) (now : Nat) (p : RatmasPairing) :
    RatmasPairing :=
  if q p then { p with notifiedAt := some now } else p

/-- Number of events of guild `g` whose status is in `ACTIVE_STATUSES`. -/
def activeCount (s : RepoState) (g : String) : Nat :=
  (s.events.filter (fun e =>
    e.guildId == g && ACTIVE_STATUSES.contains e.status)).length

/-- Well-formedness of the event table: ids are unique (the primary key) and
each guild has at most one active event (the §3 invariant). -/
def EventsWF (s : RepoState) : Prop :=
  (s.events.map (fun e => e.id)).Nodup ∧ ∀ g, activeCount s g ≤ 1

/-!
## Concrete fixtures

Small states used by the closed witness and counterexample theorems.
-/

/-- A fixed event config for the fixtures. -/
def cfg0 : RatmasEventConfig :=
  { ratmasRoleId := "role", eventStartDate := 10, purchaseDeadline := 20
    revealDate := 30, timezone := "America/New_York"
    announcementChannelId := none }

/-- Participant `a` of event `E`. -/
def pA : RatmasParticipant :=
  { id := "a", eventId := "E", userId := "uA", guildId := "G"
    displayName := "Alice", wishlistUrl := none }

/-- Participant `b` of event `E`. -/
def pB : RatmasParticipant :=
  { id := "b", eventId := "E", userId := "uB", guildId := "G"
    displayName := "Bob", wishlistUrl := some "https://a.co/list" }

/-- Participant `c` of event `E`. -/
def pC : RatmasParticipant :=
  { id := "c", eventId := "E", userId := "uC", guildId := "G"
    displayName := "Cara", wishlistUrl := none }

/-- Event `E` of guild `G` in the `LOCKED` state. -/
def evLocked : RatmasEvent :=
  { id := "E", guildId := "G", status := LOCKED, config := cfg0 }

/-- Event `E` of guild `G` in the `OPEN` state. -/
def evOpen : RatmasEvent :=
  { id := "E", guildId := "G", status := OPEN, config := cfg0 }

/-- Event `E` of guild `G` in the `COMPLETED` state. -/
def evCompleted : RatmasEvent :=
  { id := "E", guildId := "G", status := COMPLETED, config := cfg0 }

/-- Event `E` of guild `G` in the `MATCHED` state. -/
def evMatched : RatmasEvent :=
  { id := "E", guildId := "G", status := MATCHED, config := cfg0 }

/-- A `LOCKED` event `E` of guild `G` with three enrolled participants. -/
def sLocked : RepoState :=
  { events := [evLocked]
    participants := [pA, pB, pC]
    pairings := [] }

/-- A `LOCKED` event `E` with only two enrolled participants. -/
def sLockedTwo : RepoState :=
  { events := [evLocked]
    participants := [pA, pB]
    pairings := [] }

/-- An `OPEN` event `E` with one enrolled participant. -/
def sOpenOne : RepoState :=
  { events := [evOpen]
    participants := [pA]
    pairings := [] }

/-- A `COMPLETED` event `E`. -/
def sCompleted : RepoState :=
  { events := [evCompleted]
    participants := []
    pairings := [] }

/-- A `MATCHED` event `E` with the three participants and their cycle of
pairings, none notified yet. -/
def sMatched : RepoState :=
  { events := [evMatched]
    participants := [pA, pB, pC]
    pairings :=
      [{ id := "p0", eventId := "E", santaId := "a", recipientId := "b"
         notifiedAt := none },
       { id := "p1", eventId := "E", santaId := "b", recipientId := "c"
         notifiedAt := none },
       { id := "p2", eventId := "E", santaId := "c", recipientId := "a"
         notifiedAt := none }] }

/-- The store produced by `generatePairings` with the identity shuffle on
`sLocked`: the event is `MATCHED` and the three cycle pairings are stored. -/
def sLockedAfter : RepoState :=
  { events := [{ evLocked with status := MATCHED }]
    participants := [pA, pB, pC]
    pairings :=
      [{ id := "pair0", eventId := "E", santaId := "a", recipientId := "b"
         notifiedAt := none },
       { id := "pair1", eventId := "E", santaId := "b", recipientId := "c"
         notifiedAt := none },
       { id := "pair2", eventId := "E", santaId := "c", recipientId := "a"
         notifiedAt := none }] }

/-- Concrete creation options for guild `G`. -/
def optsG : CreateEventOptions :=
  { guildId := "G", ratmasRoleId := "role", eventStartDate := 10
    purchaseDeadline := 20, revealDate := 30, eventEndDate := 40
    timezone := "America/New_York", announcementChannelId := none }

/-- The identity shuffle, used as a concrete `shuffleFn` in fixtures (it is
a permutation of its input, and it fixes every position). -/
def idShuffle (l : List RatmasParticipant) : List RatmasParticipant := l

/-- A concrete fresh-id supply for pairings. -/
def fixtureIds (i : Nat) : String := "pair" ++ toString i

/-!
## Theorems
-/

/-- Putting a list's `m`-th element in front of the list with `x` written at
position `m` is a permutation of putting `x` in front of the list itself. -/
theorem cons_set_perm (xs : List α) (m : Nat) (x : α) (hm : m < xs.length) :
    (xs[m] :: xs.set m x).Perm (x :: xs) := by
  have hdecomp : xs.set m x = xs.take m ++ x :: xs.drop (m + 1) :=
    List.set_eq_take_cons_drop x hm
  have hxs : xs.take m ++ xs[m] :: xs.drop (m + 1) = xs := by
    rw [List.getElem_cons_drop xs m hm, List.take_append_drop]
  rw [hdecomp]
  refine List.Perm.trans (List.Perm.cons _ List.perm_middle) ?_
  refine List.Perm.trans (List.Perm.swap _ _ _) ?_
  refine List.Perm.trans (List.Perm.cons _ List.perm_middle.symm) ?_
  rw [hxs]

/-- Writing element `j` at position `i` and element `i` at position `j`
permutes the list. -/
theorem set_set_perm (l : List α) : ∀ (i j : Nat)
    (hi : i < l.length) (hj : j < l.length),
    ((l.set i l[j]).set j l[i]).Perm l := by
  induction l with
  | nil => intro i j hi _; simp at hi
  | cons x xs ih =>
    intro i j hi hj
    rcases i with _ | k <;> rcases j with _ | m
    · simp
    · have hm : m < xs.length := by simpa using hj
      simpa using cons_set_perm xs m x hm
    · have hk : k < xs.length := by simpa using hi
      simpa using cons_set_perm xs k x hk
    · have hk : k < xs.length := by simpa using hi
      have hm : m < xs.length := by simpa using hj
      simpa using List.Perm.cons x (ih k m hk hm)

/-- One Fisher–Yates swap permutes the list (and is the identity when an
index is out of range). -/
theorem swapAt_perm (l : List α) (i j : Nat) : (swapAt l i j).Perm l := by
  unfold swapAt
  split
  · next a b h1 h2 =>
    obtain ⟨hi, hgi⟩ := List.get?_eq_some.mp h1
    obtain ⟨hj, hgj⟩ := List.get?_eq_some.mp h2
    subst hgi hgj
    simpa using set_set_perm l i j hi hj
  · exact List.Perm.refl l

/-- The full Fisher–Yates pass permutes the list. -/
theorem fisherYatesFrom_perm (rand : Nat → Nat) :
    ∀ (n : Nat) (l : List α), (fisherYatesFrom rand n l).Perm l
  | 0, _ => List.Perm.refl _
  | Nat.succ i, l =>
    (fisherYatesFrom_perm rand i _).trans
      (swapAt_perm l (i + 1) (rand (i + 1) % (i + 2)))

/-- `shuffleArray` returns a permutation of its input, whatever the random
draws are. -/
theorem shuffleArray_perm (rand : Nat → Nat) (l : List α) :
    (shuffleArray rand l).Perm l :=
  fisherYatesFrom_perm rand (l.length - 1) l

/-- Reading a list back by positions `0, ..., length-1` reproduces it. -/
theorem map_getD_range (d : α) : ∀ (l : List α),
    (List.range l.length).map (fun i => l.getD i d) = l
  | [] => rfl
  | x :: xs => by
    rw [List.length_cons, List.range_succ_eq_map, List.map_cons, List.map_map]
    simpa [Function.comp_def] using map_getD_range d xs

/-- Reading a list back by positions `1, ..., length-1, 0` gives its
rotation by one. -/
theorem map_getD_range_rotate (d : α) (l : List α) (hl : 0 < l.length) :
    (List.range l.length).map (fun i => l.getD ((i + 1) % l.length) d) =
      l.rotate 1 := by
  apply List.ext_getElem
  · simp
  · intro i h1 h2
    have hi : i < l.length := by simpa using h1
    have hmod : (i + 1) % l.length < l.length := Nat.mod_lt _ hl
    rw [List.getElem_map, List.getElem_range, List.getD_eq_getElem _ _ hmod,
      List.getElem_rotate]

/-- With at least 3 participants, `createPairings` succeeds and returns
exactly the cycle over the shuffled order. -/
theorem createPairings_ok (eventId : String)
    (participants : List RatmasParticipant)
    (shuffleFn : List RatmasParticipant → List RatmasParticipant)
    (newId : Nat → String) (h3 : 3 ≤ participants.length) :
    createPairings eventId participants shuffleFn newId =
      Except.ok (cyclePairings eventId newId (shuffleFn participants)) := by
  unfold createPairings cyclePairings
  rw [if_neg (by omega)]

/-- The Santas of the cycle are the shuffled participants in order. -/
theorem cyclePairings_map_santaId (eventId : String) (newId : Nat → String)
    (shuffled : List RatmasParticipant) :
    (cyclePairings eventId newId shuffled).map (fun p => p.santaId) =
      shuffled.map (fun q => q.id) := by
  unfold cyclePairings
  rw [List.map_map]
  show (List.range shuffled.length).map
    ((fun q : RatmasParticipant => q.id) ∘ (fun i => shuffled.getD i default)) =
      shuffled.map (fun q => q.id)
  rw [← List.map_map, map_getD_range]

/-- The Recipients of the cycle are the shuffled participants rotated by
one. -/
theorem cyclePairings_map_recipientId (eventId : String) (newId : Nat → String)
    (shuffled : List RatmasParticipant) (h : 0 < shuffled.length) :
    (cyclePairings eventId newId shuffled).map (fun p => p.recipientId) =
      (shuffled.rotate 1).map (fun q => q.id) := by
  unfold cyclePairings
  rw [List.map_map]
  show (List.range shuffled.length).map
    ((fun q : RatmasParticipant => q.id) ∘
      (fun i => shuffled.getD ((i + 1) % shuffled.length) default)) =
      (shuffled.rotate 1).map (fun q => q.id)
  rw [← List.map_map, map_getD_range_rotate _ _ h]

/-- Every pairing of the cycle carries the event id. -/
theorem cyclePairings_eventId (eventId : String) (newId : Nat → String)
    (shuffled : List RatmasParticipant) :
    ∀ p ∈ cyclePairings eventId newId shuffled, p.eventId = eventId := by
  intro p hp
  obtain ⟨i, _, rfl⟩ := List.mem_map.mp hp
  rfl

/-- The cycle has one pairing per participant. -/
theorem cyclePairings_length (eventId : String) (newId : Nat → String)
    (shuffled : List RatmasParticipant) :
    (cyclePairings eventId newId shuffled).length = shuffled.length := by
  simp [cyclePairings]

/-- With distinct ids and at least two participants, no pairing of the
cycle is a self-pairing. -/
theorem cyclePairings_no_self (eventId : String) (newId : Nat → String)
    (shuffled : List RatmasParticipant) (h2 : 2 ≤ shuffled.length)
    (hnodup : (shuffled.map (fun q => q.id)).Nodup) :
    ∀ p ∈ cyclePairings eventId newId shuffled,
      p.santaId ≠ p.recipientId := by
  intro p hp
  obtain ⟨i, hmem, rfl⟩ := List.mem_map.mp hp
  have hi : i < shuffled.length := List.mem_range.mp hmem
  have hmod : (i + 1) % shuffled.length < shuffled.length :=
    Nat.mod_lt _ (by omega)
  intro heq
  simp only [List.getD_eq_getElem _ _ hi, List.getD_eq_getElem _ _ hmod] at heq
  have hEq : (shuffled.map (fun q => q.id)).get ⟨i, by simpa using hi⟩ =
      (shuffled.map (fun q => q.id)).get
        ⟨(i + 1) % shuffled.length, by simpa using hmod⟩ := by
    simpa using heq
  have hij : i = (i + 1) % shuffled.length := by
    simpa using congrArg Fin.val ((hnodup.get_inj_iff).mp hEq)
  rcases Nat.lt_or_ge (i + 1) shuffled.length with hlt | hge
  · rw [Nat.mod_eq_of_lt hlt] at hij
    omega
  · have hin : i + 1 = shuffled.length := by omega
    rw [hin, Nat.mod_self] at hij
    omega

/-- Writing a status touches only the matching event row, so looking the
event up afterwards returns it with the new status. -/
theorem findEventById_update (s : RepoState) (eventId : String)
    (st : RatmasEventStatus) (ev : RatmasEvent)
    (hfind : findEventById s eventId = some ev) :
    findEventById (repoUpdateEventStatus s eventId st) eventId =
      some { ev with status := st } := by
  unfold findEventById at hfind
  have hev := List.find?_some hfind
  unfold findEventById repoUpdateEventStatus
  simp only []
  rw [List.find?_map]
  have hcomp : ((fun e : RatmasEvent => e.id == eventId) ∘
      (fun e => if e.id == eventId then { e with status := st } else e)) =
      (fun e : RatmasEvent => e.id == eventId) := by
    funext e
    by_cases h : e.id = eventId <;> simp [Function.comp, h]
  have hev2 : ev.id = eventId := by simpa using hev
  rw [hcomp, hfind]
  simp [hev2]

/-- The success path of `generatePairings`: on a `LOCKED` event with at
least 3 participants it replaces the event's pairing set with the cycle and
writes `MATCHED`. -/
theorem generatePairings_eq_ok (s : RepoState) (eventId : String)
    (ev : RatmasEvent)
    (shuffleFn : List RatmasParticipant → List RatmasParticipant)
    (newId : Nat → String)
    (hfind : findEventById s eventId = some ev)
    (hstatus : ev.status = LOCKED)
    (h3 : 3 ≤ (listParticipants s eventId).length) :
    generatePairings shuffleFn newId eventId s = Except.ok
      ({ success := true
         pairingsCreated :=
           (cyclePairings eventId newId
             (shuffleFn (listParticipants s eventId))).length
         error := none },
       repoUpdateEventStatus
         (replacePairings s eventId
           (cyclePairings eventId newId
             (shuffleFn (listParticipants s eventId))))
         eventId MATCHED) := by
  have hcp := createPairings_ok eventId (listParticipants s eventId)
    shuffleFn newId h3
  have hfind1 : findEventById
      (replacePairings s eventId
        (cyclePairings eventId newId
          (shuffleFn (listParticipants s eventId)))) eventId = some ev := hfind
  have hval : validateStatusTransition LOCKED MATCHED = Except.ok () := by
    decide
  have hlt : ¬ ((listParticipants s eventId).length < 3) := by omega
  simp only [generatePairings, hfind, hstatus, hlt, hcp, updateEventStatus,
    hfind1, hval]
  simp

/-- Positions with equal participant ids coincide when the ids are
duplicate-free. -/
theorem shuffled_id_inj (shuffled : List RatmasParticipant)
    (hnodup : (shuffled.map (fun q => q.id)).Nodup)
    {i j : Nat} (hi : i < shuffled.length) (hj : j < shuffled.length)
    (h : (shuffled.getD i default).id = (shuffled.getD j default).id) :
    i = j := by
  rw [List.getD_eq_getElem _ _ hi, List.getD_eq_getElem _ _ hj] at h
  have hEq : (shuffled.map (fun q => q.id)).get ⟨i, by simpa using hi⟩ =
      (shuffled.map (fun q => q.id)).get ⟨j, by simpa using hj⟩ := by
    simpa using h
  simpa using congrArg Fin.val ((hnodup.get_inj_iff).mp hEq)

/-- **C1.** On a `LOCKED` event with `N ≥ 3` enrolled participants (with
distinct ids, the primary key) and any shuffle that permutes its input,
`generatePairings` succeeds with exactly `N` pairings in which every
participant appears exactly once as Santa and exactly once as Recipient,
no pairing is a self-pairing, and the event's status becomes `MATCHED`. -/
theorem generatePairings_permutation (s : RepoState) (eventId : String)
    (ev : RatmasEvent)
    (shuffleFn : List RatmasParticipant → List RatmasParticipant)
    (newId : Nat → String)
    (hshuffle : ∀ l, (shuffleFn l).Perm l)
    (hfind : findEventById s eventId = some ev)
    (hstatus : ev.status = LOCKED)
    (h3 : 3 ≤ (listParticipants s eventId).length)
    (hnodup : ((listParticipants s eventId).map (fun q => q.id)).Nodup) :
    ∃ (newPairings : List RatmasPairing) (s' : RepoState),
      generatePairings shuffleFn newId eventId s = Except.ok
        ({ success := true
           pairingsCreated := (listParticipants s eventId).length
           error := none }, s') ∧
      listPairingsForEvent s' eventId = newPairings ∧
      newPairings.length = (listParticipants s eventId).length ∧
      (newPairings.map (fun p => p.santaId)).Perm
        ((listParticipants s eventId).map (fun q => q.id)) ∧
      (newPairings.map (fun p => p.recipientId)).Perm
        ((listParticipants s eventId).map (fun q => q.id)) ∧
      (∀ q ∈ listParticipants s eventId,
        (newPairings.map (fun p => p.santaId)).count q.id = 1 ∧
        (newPairings.map (fun p => p.recipientId)).count q.id = 1) ∧
      (∀ p ∈ newPairings, p.santaId ≠ p.recipientId) ∧
      findEventById s' eventId = some { ev with status := MATCHED } := by
  have hperm : (shuffleFn (listParticipants s eventId)).Perm
      (listParticipants s eventId) := hshuffle _
  have hlen := hperm.length_eq
  have hLlen : (cyclePairings eventId newId
      (shuffleFn (listParticipants s eventId))).length =
      (listParticipants s eventId).length :=
    (cyclePairings_length _ _ _).trans hlen
  have hrun := generatePairings_eq_ok s eventId ev shuffleFn newId hfind
    hstatus h3
  rw [hLlen] at hrun
  have hSanta : ((cyclePairings eventId newId
      (shuffleFn (listParticipants s eventId))).map (fun p => p.santaId)).Perm
      ((listParticipants s eventId).map (fun q => q.id)) := by
    rw [cyclePairings_map_santaId]
    exact hperm.map _
  have hRecip : ((cyclePairings eventId newId
      (shuffleFn (listParticipants s eventId))).map
        (fun p => p.recipientId)).Perm
      ((listParticipants s eventId).map (fun q => q.id)) := by
    rw [cyclePairings_map_recipientId _ _ _ (by omega)]
    exact ((List.rotate_perm _ 1).map _).trans (hperm.map _)
  refine ⟨cyclePairings eventId newId (shuffleFn (listParticipants s eventId)),
    repoUpdateEventStatus
      (replacePairings s eventId
        (cyclePairings eventId newId
          (shuffleFn (listParticipants s eventId)))) eventId MATCHED,
    hrun, ?_, hLlen, hSanta, hRecip, ?_, ?_, ?_⟩
  · show ((s.pairings.filter (fun p => p.eventId != eventId) ++
        cyclePairings eventId newId
          (shuffleFn (listParticipants s eventId))).filter
            (fun p => p.eventId == eventId)) = _
    rw [List.filter_append]
    have h1 : (s.pairings.filter (fun p => p.eventId != eventId)).filter
        (fun p => p.eventId == eventId) = [] := by
      apply List.eq_nil_iff_forall_not_mem.mpr
      intro p hp
      rw [List.mem_filter, List.mem_filter] at hp
      obtain ⟨⟨_, hne⟩, heq⟩ := hp
      simp only [bne_iff_ne, ne_eq, beq_iff_eq] at hne heq
      exact hne heq
    have h2 : (cyclePairings eventId newId
        (shuffleFn (listParticipants s eventId))).filter
          (fun p => p.eventId == eventId) = cyclePairings eventId newId
            (shuffleFn (listParticipants s eventId)) := by
      apply List.filter_eq_self.mpr
      intro p hp
      simp [cyclePairings_eventId _ _ _ p hp]
    rw [h1, h2, List.nil_append]
  · intro q hq
    have hqmem : q.id ∈ (listParticipants s eventId).map (fun r => r.id) :=
      List.mem_map_of_mem _ hq
    constructor
    · rw [hSanta.count_eq]
      exact List.count_eq_one_of_mem hnodup hqmem
    · rw [hRecip.count_eq]
      exact List.count_eq_one_of_mem hnodup hqmem
  · exact cyclePairings_no_self eventId newId _ (by omega)
      (((hperm.map (fun r => r.id)).nodup_iff).mpr hnodup)
  · exact findEventById_update _ _ _ _ hfind

/-- Closed instance for `generatePairings_permutation`: the three-person
locked fixture with the identity shuffle. -/
theorem generatePairings_permutation_witness :
    ∃ (newPairings : List RatmasPairing) (s' : RepoState),
      generatePairings idShuffle fixtureIds "E" sLocked = Except.ok
        ({ success := true
           pairingsCreated := (listParticipants sLocked "E").length
           error := none }, s') ∧
      listPairingsForEvent s' "E" = newPairings ∧
      newPairings.length = (listParticipants sLocked "E").length ∧
      (newPairings.map (fun p => p.santaId)).Perm
        ((listParticipants sLocked "E").map (fun q => q.id)) ∧
      (newPairings.map (fun p => p.recipientId)).Perm
        ((listParticipants sLocked "E").map (fun q => q.id)) ∧
      (∀ q ∈ listParticipants sLocked "E",
        (newPairings.map (fun p => p.santaId)).count q.id = 1 ∧
        (newPairings.map (fun p => p.recipientId)).count q.id = 1) ∧
      (∀ p ∈ newPairings, p.santaId ≠ p.recipientId) ∧
      findEventById s' "E" = some { evLocked with status := MATCHED } :=
  generatePairings_permutation sLocked "E" evLocked idShuffle fixtureIds
    (fun l => List.Perm.refl l) (by decide) (by decide) (by decide) (by decide)

/-- **C10.** The pairing builder produces a single cycle over the shuffled
order (position `i` gives to position `(i + 1) mod N`), and in particular
two participants are never paired reciprocally. -/
theorem createPairings_cycle (eventId : String)
    (participants : List RatmasParticipant)
    (shuffleFn : List RatmasParticipant → List RatmasParticipant)
    (newId : Nat → String)
    (hshuffle : (shuffleFn participants).Perm participants)
    (h3 : 3 ≤ participants.length)
    (hnodup : (participants.map (fun q => q.id)).Nodup) :
    ∃ L, createPairings eventId participants shuffleFn newId = Except.ok L ∧
      L.length = (shuffleFn participants).length ∧
      (∀ i, i < (shuffleFn participants).length →
        (L.getD i default).santaId =
          ((shuffleFn participants).getD i default).id ∧
        (L.getD i default).recipientId =
          ((shuffleFn participants).getD
            ((i + 1) % (shuffleFn participants).length) default).id) ∧
      (∀ p ∈ L, ∀ q ∈ L,
        ¬ (p.recipientId = q.santaId ∧ q.recipientId = p.santaId)) := by
  have hlen := hshuffle.length_eq
  have hn : 3 ≤ (shuffleFn participants).length := by omega
  have hnodupSh : ((shuffleFn participants).map (fun q => q.id)).Nodup :=
    ((hshuffle.map (fun r => r.id)).nodup_iff).mpr hnodup
  refine ⟨cyclePairings eventId newId (shuffleFn participants),
    createPairings_ok eventId participants shuffleFn newId h3,
    cyclePairings_length _ _ _, ?_, ?_⟩
  · intro i hi
    have hgd : (cyclePairings eventId newId (shuffleFn participants)).getD i
        default = { id := newId i
                    eventId := eventId
                    santaId := ((shuffleFn participants).getD i default).id
                    recipientId := ((shuffleFn participants).getD
                      ((i + 1) % (shuffleFn participants).length) default).id
                    notifiedAt := none } := by
      have hiL : i < (cyclePairings eventId newId
          (shuffleFn participants)).length := by
        rw [cyclePairings_length]
        exact hi
      rw [List.getD_eq_getElem _ _ hiL]
      unfold cyclePairings
      rw [List.getElem_map, List.getElem_range]
    rw [hgd]
    exact ⟨rfl, rfl⟩
  · intro p hp q hq hcross
    obtain ⟨i, hip, rfl⟩ := List.mem_map.mp hp
    obtain ⟨j, hjq, rfl⟩ := List.mem_map.mp hq
    have hi : i < (shuffleFn participants).length := List.mem_range.mp hip
    have hj : j < (shuffleFn participants).length := List.mem_range.mp hjq
    have hposn : 0 < (shuffleFn participants).length := by omega
    have hmi : (i + 1) % (shuffleFn participants).length <
        (shuffleFn participants).length := Nat.mod_lt _ hposn
    have hmj : (j + 1) % (shuffleFn participants).length <
        (shuffleFn participants).length := Nat.mod_lt _ hposn
    obtain ⟨h1, h2⟩ := hcross
    have hij : (i + 1) % (shuffleFn participants).length = j :=
      shuffled_id_inj _ hnodupSh hmi hj h1
    have hji : (j + 1) % (shuffleFn participants).length = i :=
      shuffled_id_inj _ hnodupSh hmj hi h2
    have hii : (i + 2) % (shuffleFn participants).length = i := by
      rw [show i + 2 = (i + 1) + 1 from rfl, ← Nat.mod_add_mod, hij, hji]
    rcases Nat.lt_or_ge (i + 2) (shuffleFn participants).length with hlt | hge
    · rw [Nat.mod_eq_of_lt hlt] at hii
      omega
    · have hsub : i + 2 - (shuffleFn participants).length <
          (shuffleFn participants).length := by omega
      rw [Nat.mod_eq_sub_mod hge, Nat.mod_eq_of_lt hsub] at hii
      omega

/-- Closed instance for `createPairings_cycle`: three fixture participants
with the identity shuffle. -/
theorem createPairings_cycle_witness :
    ∃ L, createPairings "E" [pA, pB, pC] idShuffle fixtureIds =
        Except.ok L ∧
      L.length = (idShuffle [pA, pB, pC]).length ∧
      (∀ i, i < (idShuffle [pA, pB, pC]).length →
        (L.getD i default).santaId =
          ((idShuffle [pA, pB, pC]).getD i default).id ∧
        (L.getD i default).recipientId =
          ((idShuffle [pA, pB, pC]).getD
            ((i + 1) % (idShuffle [pA, pB, pC]).length) default).id) ∧
      (∀ p ∈ L, ∀ q ∈ L,
        ¬ (p.recipientId = q.santaId ∧ q.recipientId = p.santaId)) :=
  createPairings_cycle "E" [pA, pB, pC] idShuffle fixtureIds
    (List.Perm.refl _) (by decide) (by decide)

/-- **C2.** For every pair of statuses, `validateStatusTransition` succeeds
iff the pair is in the table OPEN→{LOCKED,CANCELLED},
LOCKED→{MATCHED,OPEN,CANCELLED}, MATCHED→{NOTIFIED,CANCELLED},
NOTIFIED→{COMPLETED,CANCELLED}, COMPLETED→{}, CANCELLED→{}; every other
pair fails with the invalid-transition error, and `updateEventStatus`
then fails without writing the status. -/
theorem statusTransition_table :
    (∀ c n : RatmasEventStatus,
       validateStatusTransition c n = Except.ok () ↔
         ((c = OPEN ∧ (n = LOCKED ∨ n = CANCELLED)) ∨
          (c = LOCKED ∧ (n = MATCHED ∨ n = OPEN ∨ n = CANCELLED)) ∨
          (c = MATCHED ∧ (n = NOTIFIED ∨ n = CANCELLED)) ∨
          (c = NOTIFIED ∧ (n = COMPLETED ∨ n = CANCELLED)))) ∧
    (∀ c n : RatmasEventStatus,
       validateStatusTransition c n = Except.ok () ∨
       validateStatusTransition c n = Except.error
         ("Invalid status transition from " ++ statusName c ++ " to "
           ++ statusName n)) ∧
    (∀ (s : RepoState) (eventId : String) (n : RatmasEventStatus)
       (ev : RatmasEvent),
       findEventById s eventId = some ev →
       validateStatusTransition ev.status n ≠ Except.ok () →
       updateEventStatus eventId n s = Except.error
         ("Invalid status transition from " ++ statusName ev.status ++ " to "
           ++ statusName n)) := by
  refine ⟨by decide, by decide, ?_⟩
  intro s eventId n ev hfind hne
  have h2 : ∀ c n : RatmasEventStatus,
      validateStatusTransition c n = Except.ok () ∨
      validateStatusTransition c n = Except.error
        ("Invalid status transition from " ++ statusName c ++ " to "
          ++ statusName n) := by decide
  unfold updateEventStatus
  rw [hfind]
  rcases h2 ev.status n with h | h
  · exact absurd h hne
  · simp [h]

/-- Closed instance for `statusTransition_table`: the COMPLETED→OPEN request
on a stored event is rejected and no status is written. -/
theorem statusTransition_table_witness :
    findEventById sCompleted "E" = some evCompleted ∧
    validateStatusTransition evCompleted.status OPEN ≠ Except.ok () ∧
    updateEventStatus "E" OPEN sCompleted = Except.error
      ("Invalid status transition from " ++ statusName evCompleted.status
        ++ " to " ++ statusName OPEN) :=
  ⟨by decide, by decide,
    statusTransition_table.2.2 sCompleted "E" OPEN evCompleted
      (by decide) (by decide)⟩

/-- **C6.** `generatePairings` on a `LOCKED` event with fewer than 3
participants returns a failed result naming the minimum and the actual
count, creates no pairings, and leaves the whole store (hence the event's
`LOCKED` status) unchanged. -/
theorem generatePairings_insufficient (s : RepoState) (eventId : String)
    (ev : RatmasEvent)
    (shuffleFn : List RatmasParticipant → List RatmasParticipant)
    (newId : Nat → String)
    (hfind : findEventById s eventId = some ev)
    (hstatus : ev.status = LOCKED)
    (hcount : (listParticipants s eventId).length < 3) :
    generatePairings shuffleFn newId eventId s = Except.ok
      ({ success := false, pairingsCreated := 0
         error := some ("Need at least 3 participants, found "
           ++ toString (listParticipants s eventId).length) }, s) := by
  unfold generatePairings
  rw [hfind]
  simp [hstatus, hcount]

/-- Closed instance for `generatePairings_insufficient`: a locked event with
two participants. -/
theorem generatePairings_insufficient_witness :
    findEventById sLockedTwo "E" = some evLocked ∧
    evLocked.status = LOCKED ∧
    (listParticipants sLockedTwo "E").length < 3 ∧
    generatePairings idShuffle fixtureIds "E" sLockedTwo = Except.ok
      ({ success := false, pairingsCreated := 0
         error := some ("Need at least 3 participants, found "
           ++ toString (listParticipants sLockedTwo "E").length) },
        sLockedTwo) :=
  ⟨by decide, by decide, by decide,
    generatePairings_insufficient sLockedTwo "E" evLocked idShuffle fixtureIds
      (by decide) (by decide) (by decide)⟩

/-- **C7.** `generatePairings` on an event whose status is not `LOCKED`
returns a failed result naming the current status and leaves the whole
store (pairings and status included) unchanged. -/
theorem generatePairings_statusConflict (s : RepoState) (eventId : String)
    (ev : RatmasEvent)
    (shuffleFn : List RatmasParticipant → List RatmasParticipant)
    (newId : Nat → String)
    (hfind : findEventById s eventId = some ev)
    (hstatus : ev.status ≠ LOCKED) :
    generatePairings shuffleFn newId eventId s = Except.ok
      ({ success := false, pairingsCreated := 0
         error := some ("Cannot generate pairings for event with status: "
           ++ statusName ev.status) }, s) := by
  unfold generatePairings
  rw [hfind]
  simp [hstatus]

/-- Closed instance for `generatePairings_statusConflict`: a `MATCHED`
event. -/
theorem generatePairings_statusConflict_witness :
    findEventById sMatched "E" = some evMatched ∧
    evMatched.status ≠ LOCKED ∧
    generatePairings idShuffle fixtureIds "E" sMatched = Except.ok
      ({ success := false, pairingsCreated := 0
         error := some ("Cannot generate pairings for event with status: "
           ++ statusName evMatched.status) }, sMatched) :=
  ⟨by decide, by decide,
    generatePairings_statusConflict sMatched "E" evMatched idShuffle
      fixtureIds (by decide) (by decide)⟩

/-- **C9.** `addParticipant` fails with a status error when the event is not
`OPEN`, fails with the already-a-participant error when the `(event, user)`
pair exists on an `OPEN` event, and otherwise appends exactly one new
participant row carrying the supplied display name and optional wishlist
URL. -/
theorem addParticipant_spec :
    (∀ (newId eventId userId displayName : String)
       (wishlistUrl : Option String) (s : RepoState) (ev : RatmasEvent),
       findEventById s eventId = some ev → ev.status ≠ OPEN →
       addParticipant newId eventId userId displayName wishlistUrl s =
         Except.error ("Cannot add participants to event with status: "
           ++ statusName ev.status)) ∧
    (∀ (newId eventId userId displayName : String)
       (wishlistUrl : Option String) (s : RepoState) (ev : RatmasEvent)
       (q : RatmasParticipant),
       findEventById s eventId = some ev → ev.status = OPEN →
       findParticipantByEventAndUser s eventId userId = some q →
       addParticipant newId eventId userId displayName wishlistUrl s =
         Except.error ("User " ++ userId ++ " is already a participant")) ∧
    (∀ (newId eventId userId displayName : String)
       (wishlistUrl : Option String) (s : RepoState) (ev : RatmasEvent),
       findEventById s eventId = some ev → ev.status = OPEN →
       findParticipantByEventAndUser s eventId userId = none →
       addParticipant newId eventId userId displayName wishlistUrl s =
         Except.ok
           ({ id := newId, eventId := eventId, userId := userId
              guildId := ev.guildId, displayName := displayName
              wishlistUrl := wishlistUrl },
            { s with participants := s.participants ++
                [{ id := newId, eventId := eventId, userId := userId
                   guildId := ev.guildId, displayName := displayName
                   wishlistUrl := wishlistUrl }] })) := by
  refine ⟨?_, ?_, ?_⟩
  · intro newId eventId userId displayName wishlistUrl s ev hfind hstatus
    unfold addParticipant
    rw [hfind]
    simp [hstatus]
  · intro newId eventId userId displayName wishlistUrl s ev q hfind hstatus hdup
    unfold addParticipant
    rw [hfind]
    simp [hstatus, hdup]
  · intro newId eventId userId displayName wishlistUrl s ev hfind hstatus hnew
    unfold addParticipant
    rw [hfind]
    simp [hstatus, hnew, repoCreateParticipant]

/-- Closed instance for `addParticipant_spec`: enrolling a second user in an
`OPEN` event creates exactly one participant row. -/
theorem addParticipant_spec_witness :
    findEventById sOpenOne "E" = some evOpen ∧
    evOpen.status = OPEN ∧
    findParticipantByEventAndUser sOpenOne "E" "uB" = none ∧
    addParticipant "b2" "E" "uB" "Bobby" (some "https://a.co/w") sOpenOne =
      Except.ok
        ({ id := "b2", eventId := "E", userId := "uB", guildId := evOpen.guildId
           displayName := "Bobby", wishlistUrl := some "https://a.co/w" },
         { sOpenOne with participants := sOpenOne.participants ++
             [{ id := "b2", eventId := "E", userId := "uB"
                guildId := evOpen.guildId, displayName := "Bobby"
                wishlistUrl := some "https://a.co/w" }] }) :=
  ⟨by decide, by decide, by decide,
    addParticipant_spec.2.2 "b2" "E" "uB" "Bobby" (some "https://a.co/w")
      sOpenOne evOpen (by decide) (by decide) (by decide)⟩

/-- The `notifyAllPairings` loop computes exactly the filter by
`shouldNotify`: the count of successes and one `(id, now)` entry per
success. -/
theorem notifyAllPairings_eq (event : RatmasEvent)
    (participants : List RatmasParticipant) (deliver : String → Bool)
    (now : Nat) (pairings : List RatmasPairing) :
    notifyAllPairings event pairings participants deliver now =
      ((pairings.filter (shouldNotify event participants deliver)).length,
       (pairings.filter (shouldNotify event participants deliver)).map
         (fun p => (p.id, now))) := by
  induction pairings with
  | nil => rfl
  | cons p rest ih =>
    cases h1 : p.eventId == event.id with
    | false =>
      simp [notifyAllPairings, shouldNotify, bne, h1, List.filter_cons, ih]
    | true =>
      cases hno : p.notifiedAt with
      | some t =>
        simp [notifyAllPairings, shouldNotify, bne, h1, hno,
          List.filter_cons, ih]
      | none =>
        rcases hS : participantMapGet participants p.santaId with _ | sa
        · simp [notifyAllPairings, shouldNotify, bne, h1, hno, hS,
            List.filter_cons, ih]
        · rcases hR : participantMapGet participants p.recipientId with _ | re
          · simp [notifyAllPairings, shouldNotify, bne, h1, hno, hS, hR,
              List.filter_cons, ih]
          · cases hd : deliver sa.userId with
            | false =>
              simp [notifyAllPairings, shouldNotify, bne, h1, hno, hS, hR,
                hd, List.filter_cons, ih]
            | true =>
              simp [notifyAllPairings, shouldNotify, bne, h1, hno, hS, hR,
                hd, List.filter_cons, ih]

/-- With duplicate-free pairing ids, persisting the batch of successes
touches exactly the rows selected by the predicate, setting their
`notifiedAt` to `now`. -/
theorem markPairingsNotified_filter (s : RepoState)
    (q : RatmasPairing → Bool) (now : Nat)
    (hnodup : (s.pairings.map (fun p => p.id)).Nodup) :
    markPairingsNotified s
        ((s.pairings.filter q).map (fun p => (p.id, now))) =
      { s with pairings := s.pairings.map (fun p => applyNotify q now p) } := by
  unfold markPairingsNotified
  have hmap : ∀ p ∈ s.pairings,
      (match ((s.pairings.filter q).map
          (fun r => (r.id, now))).find? (fun u => u.1 == p.id) with
        | some u => { p with notifiedAt := some u.2 }
        | none => p) = applyNotify q now p := by
    intro p hp
    by_cases hq : q p = true
    · have hmem : (p.id, now) ∈ (s.pairings.filter q).map
          (fun r => (r.id, now)) :=
        List.mem_map_of_mem _ (List.mem_filter.mpr ⟨hp, hq⟩)
      have hsome : (((s.pairings.filter q).map
          (fun r => (r.id, now))).find? (fun u => u.1 == p.id)).isSome :=
        List.find?_isSome.mpr ⟨(p.id, now), hmem, by simp⟩
      rcases hfound : ((s.pairings.filter q).map
          (fun r => (r.id, now))).find? (fun u => u.1 == p.id) with _ | u
      · rw [hfound] at hsome
        simp at hsome
      · have hu : u ∈ (s.pairings.filter q).map (fun r => (r.id, now)) :=
          List.mem_of_find?_eq_some hfound
        obtain ⟨r, _, hru⟩ := List.mem_map.mp hu
        have hnow : u.2 = now := by rw [← hru]
        rw [hfound]
        simp [applyNotify, hq, hnow]
    · have hnone : ((s.pairings.filter q).map
          (fun r => (r.id, now))).find? (fun u => u.1 == p.id) = none := by
        apply List.find?_eq_none.mpr
        intro u hu hbeq
        obtain ⟨r, hrmem, hru⟩ := List.mem_map.mp hu
        obtain ⟨hrs, hrq⟩ := List.mem_filter.mp hrmem
        have hid : r.id = p.id := by
          have := hbeq
          rw [← hru] at this
          simpa using this
        have : r = p := List.inj_on_of_nodup_map hnodup hrs hp hid
        rw [this] at hrq
        exact hq hrq
      rw [hnone]
      simp [applyNotify, hq]
  congr 1
  exact List.map_eq_map_iff.mpr hmap

/-- A pairing selected by `shouldNotify` was outstanding (no `notifiedAt`
yet). -/
theorem shouldNotify_isNone (event : RatmasEvent)
    (participants : List RatmasParticipant) (deliver : String → Bool)
    (p : RatmasPairing)
    (h : shouldNotify event participants deliver p = true) :
    p.notifiedAt.isNone = true := by
  unfold shouldNotify at h
  simp only [Bool.and_eq_true] at h
  exact h.1.2

/-- A pairing selected by `shouldNotify` belongs to the event. -/
theorem shouldNotify_eventId (event : RatmasEvent)
    (participants : List RatmasParticipant) (deliver : String → Bool)
    (p : RatmasPairing)
    (h : shouldNotify event participants deliver p = true) :
    (p.eventId == event.id) = true := by
  unfold shouldNotify at h
  simp only [Bool.and_eq_true] at h
  exact h.1.1

/-- When every `p`-selected element is `q`-selected, the two counts agree
exactly when, conversely, every `q`-selected element is `p`-selected. -/
theorem countP_eq_iff_pointwise (p q : α → Bool) :
    ∀ (l : List α), (∀ a ∈ l, p a = true → q a = true) →
      (l.countP q = l.countP p ↔ ∀ a ∈ l, q a = true → p a = true)
  | [] => by simp
  | a :: l => by
    intro himp
    have himpl : ∀ x ∈ l, p x = true → q x = true :=
      fun x hx => himp x (List.mem_cons_of_mem a hx)
    have hmono : l.countP p ≤ l.countP q := List.countP_mono_left himpl
    have ih := countP_eq_iff_pointwise p q l himpl
    rw [List.countP_cons, List.countP_cons]
    cases hpa : p a with
    | true =>
      have hqa : q a = true := himp a (List.mem_cons_self a l) hpa
      rw [if_pos hqa, if_pos (rfl : (true : Bool) = true)]
      constructor
      · intro h x hx hqx
        rcases List.mem_cons.mp hx with rfl | hx2
        · exact hpa
        · exact (ih.mp (by omega)) x hx2 hqx
      · intro h
        have hl : l.countP q = l.countP p :=
          ih.mpr (fun x hx hqx => h x (List.mem_cons_of_mem a hx) hqx)
        omega
    | false =>
      have hnp : ¬ (p a = true) := by simp [hpa]
      rw [if_neg (by simp : ¬ ((false : Bool) = true))]
      cases hqa : q a with
      | false =>
        have hnq : ¬ (q a = true) := by simp [hqa]
        rw [if_neg (by simp : ¬ ((false : Bool) = true))]
        constructor
        · intro h x hx hqx
          rcases List.mem_cons.mp hx with rfl | hx2
          · exact absurd hqx hnq
          · exact (ih.mp (by omega)) x hx2 hqx
        · intro h
          have hl : l.countP q = l.countP p :=
            ih.mpr (fun x hx hqx => h x (List.mem_cons_of_mem a hx) hqx)
          omega
      | true =>
        rw [if_pos (rfl : (true : Bool) = true)]
        apply iff_of_false
        · omega
        · intro h
          have hcontr := h a (List.mem_cons_self a l) hqa
          exact hnp hcontr

/-- The looked-up event carries the queried id. -/
theorem findEventById_id (s : RepoState) (eventId : String)
    (ev : RatmasEvent) (hfind : findEventById s eventId = some ev) :
    ev.id = eventId := by
  unfold findEventById at hfind
  simpa using List.find?_some hfind

/-- Over the event's own pairing list, filtering by `shouldNotify` is the
same as filtering the whole store by it (its first conjunct is the event
check). -/
theorem filter_shouldNotify_eq (s : RepoState) (eventId : String)
    (ev : RatmasEvent) (deliver : String → Bool)
    (hev : ev.id = eventId) :
    (listPairingsForEvent s eventId).filter
        (shouldNotify ev (listParticipants s eventId) deliver) =
      s.pairings.filter
        (shouldNotify ev (listParticipants s eventId) deliver) := by
  unfold listPairingsForEvent
  rw [List.filter_filter]
  apply List.filter_congr
  intro p _
  cases hp : shouldNotify ev (listParticipants s eventId) deliver p with
  | false => simp
  | true =>
    have hid := shouldNotify_eventId ev (listParticipants s eventId)
      deliver p hp
    rw [hev] at hid
    simp [hid]

/-- When no pairing of the store is selected, the per-row notify map is the
identity. -/
theorem map_applyNotify_id (s : RepoState) (q : RatmasPairing → Bool)
    (now : Nat) (h : s.pairings.filter q = []) :
    s.pairings.map (applyNotify q now) = s.pairings := by
  have hpt : ∀ p ∈ s.pairings, applyNotify q now p = id p := by
    intro p hp
    have hq : ¬ q p = true := by
      simpa using List.filter_eq_nil_iff.mp h p hp
    simp [applyNotify, hq]
  rw [List.map_eq_map_iff.mpr hpt, List.map_id]

/-- One full `notifyPairings` run on a `MATCHED` event, characterized: it
returns the number of pairings selected by `shouldNotify`, stamps exactly
those rows with `now`, and advances the event to `NOTIFIED` precisely when
the code's counter check fires (a non-empty pairing set with no remaining
outstanding pairing). -/
theorem notifyPairings_run (deliver : String → Bool) (now : Nat)
    (eventId : String) (s : RepoState) (ev : RatmasEvent)
    (hfind : findEventById s eventId = some ev)
    (hstatus : ev.status = MATCHED)
    (hnodup : (s.pairings.map (fun p => p.id)).Nodup) :
    notifyPairings deliver now eventId s = Except.ok
      (((listPairingsForEvent s eventId).filter
          (shouldNotify ev (listParticipants s eventId) deliver)).length,
       { events :=
           if (decide ((listPairingsForEvent s eventId).length > 0) &&
               (((listPairingsForEvent s eventId).filter
                   (fun p => p.notifiedAt.isNone)).length -
                 ((listPairingsForEvent s eventId).filter
                   (shouldNotify ev (listParticipants s eventId)
                     deliver)).length == 0)) = true
           then (repoUpdateEventStatus s eventId NOTIFIED).events
           else s.events
         participants := s.participants
         pairings := s.pairings.map
           (applyNotify
             (shouldNotify ev (listParticipants s eventId) deliver)
             now) }) := by
  have hev : ev.id = eventId := findEventById_id s eventId ev hfind
  have hfeq := filter_shouldNotify_eq s eventId ev deliver hev
  have hval : validateStatusTransition MATCHED NOTIFIED = Except.ok () := by
    decide
  have hmark := markPairingsNotified_filter s
    (shouldNotify ev (listParticipants s eventId) deliver) now hnodup
  rw [← hfeq] at hmark
  simp only [notifyPairings, hfind, hstatus]
  rw [notifyAllPairings_eq]
  simp only [List.length_map, ne_eq, not_true_eq_false, if_false, ite_false]
  by_cases hpos : ((listPairingsForEvent s eventId).filter
      (shouldNotify ev (listParticipants s eventId) deliver)).length > 0
  · rw [if_pos hpos, hmark]
    by_cases hadv : (decide ((listPairingsForEvent s eventId).length > 0) &&
        (((listPairingsForEvent s eventId).filter
            (fun p => p.notifiedAt.isNone)).length -
          ((listPairingsForEvent s eventId).filter
            (shouldNotify ev (listParticipants s eventId)
              deliver)).length == 0)) = true
    · rw [if_pos hadv, if_pos hadv]
      have hfind1 : findEventById { s with pairings := s.pairings.map (fun p => applyNotify (shouldNotify ev (listParticipants s eventId) deliver) now p) } eventId = some ev := hfind
      simp only [updateEventStatus, hfind1, hstatus, hval,
        repoUpdateEventStatus]
    · rw [if_neg hadv, if_neg hadv]
  · rw [if_neg hpos]
    have hnil : (listPairingsForEvent s eventId).filter
        (shouldNotify ev (listParticipants s eventId) deliver) = [] :=
      List.length_eq_zero.mp (by omega)
    have hnil2 : s.pairings.filter
        (shouldNotify ev (listParticipants s eventId) deliver) = [] := by
      rw [← hfeq]
      exact hnil
    have hid := map_applyNotify_id s
      (shouldNotify ev (listParticipants s eventId) deliver) now hnil2
    by_cases hadv : (decide ((listPairingsForEvent s eventId).length > 0) &&
        (((listPairingsForEvent s eventId).filter
            (fun p => p.notifiedAt.isNone)).length -
          ((listPairingsForEvent s eventId).filter
            (shouldNotify ev (listParticipants s eventId)
              deliver)).length == 0)) = true
    · rw [if_pos hadv, if_pos hadv]
      simp only [updateEventStatus, hfind, hstatus, hval,
        repoUpdateEventStatus]
      rw [hid]
    · rw [if_neg hadv, if_neg hadv]
      rw [hid]

/-- `applyNotify` never changes a pairing's event. -/
theorem applyNotify_eventId (q : RatmasPairing → Bool) (now : Nat)
    (p : RatmasPairing) : (applyNotify q now p).eventId = p.eventId := by
  unfold applyNotify
  split <;> rfl

/-- The outstanding counter reaches zero exactly when, after stamping, no
pairing of the list lacks a `notifiedAt`. -/
theorem outstanding_all_iff (ps : List RatmasPairing)
    (sh : RatmasPairing → Bool) (now : Nat)
    (himp : ∀ p ∈ ps, sh p = true → p.notifiedAt.isNone = true) :
    ((ps.filter (fun p => p.notifiedAt.isNone)).length -
      (ps.filter sh).length = 0) ↔
    (∀ p ∈ ps.map (applyNotify sh now), p.notifiedAt.isSome = true) := by
  have hmono : ps.countP sh ≤ ps.countP (fun p => p.notifiedAt.isNone) :=
    List.countP_mono_left himp
  have hiff := countP_eq_iff_pointwise sh (fun p => p.notifiedAt.isNone)
    ps himp
  rw [← List.countP_eq_length_filter, ← List.countP_eq_length_filter]
  constructor
  · intro h
    have heq : ps.countP (fun p => p.notifiedAt.isNone) = ps.countP sh := by
      omega
    have hall := hiff.mp heq
    intro p hp
    obtain ⟨r, hr, rfl⟩ := List.mem_map.mp hp
    by_cases hshr : sh r = true
    · simp [applyNotify, hshr]
    · have hN : ¬ (r.notifiedAt.isNone = true) := fun hN =>
        hshr (hall r hr hN)
      have hS : r.notifiedAt.isSome = true := by
        cases hx : r.notifiedAt <;> simp_all
      simpa [applyNotify, hshr] using hS
  · intro hall
    have hrev : ∀ r ∈ ps, r.notifiedAt.isNone = true → sh r = true := by
      intro r hr hN
      by_contra hshr
      have hS := hall _ (List.mem_map_of_mem _ hr)
      rw [show applyNotify sh now r = r by simp [applyNotify, hshr]] at hS
      cases hx : r.notifiedAt <;> simp_all
    have := hiff.mpr hrev
    omega

/-- **C3.** A `notifyPairings` run on a `MATCHED` event marks with `now`
exactly the pairings whose delivery attempt succeeded in this run, leaves
every other pairing's `notifiedAt` unchanged, and advances the event to
`NOTIFIED` iff the event has at least one pairing and no pairing remains
without `notifiedAt`; otherwise the status stays `MATCHED`. -/
theorem notifyPairings_partial_failures (deliver : String → Bool)
    (now : Nat) (eventId : String) (s : RepoState) (ev : RatmasEvent)
    (hfind : findEventById s eventId = some ev)
    (hstatus : ev.status = MATCHED)
    (hnodup : (s.pairings.map (fun p => p.id)).Nodup) :
    ∃ s' : RepoState,
      notifyPairings deliver now eventId s = Except.ok
        (((listPairingsForEvent s eventId).filter
            (shouldNotify ev (listParticipants s eventId) deliver)).length,
          s') ∧
      listPairingsForEvent s' eventId =
        (listPairingsForEvent s eventId).map
          (applyNotify
            (shouldNotify ev (listParticipants s eventId) deliver) now) ∧
      (∀ p ∈ listPairingsForEvent s eventId,
        shouldNotify ev (listParticipants s eventId) deliver p = true →
          (applyNotify
            (shouldNotify ev (listParticipants s eventId) deliver) now
              p).notifiedAt = some now) ∧
      (∀ p ∈ listPairingsForEvent s eventId,
        shouldNotify ev (listParticipants s eventId) deliver p = false →
          (applyNotify
            (shouldNotify ev (listParticipants s eventId) deliver) now
              p).notifiedAt = p.notifiedAt) ∧
      ((findEventById s' eventId).map (fun e => e.status) = some
        (if listPairingsForEvent s eventId ≠ [] ∧
            (∀ p ∈ (listPairingsForEvent s eventId).map
              (applyNotify
                (shouldNotify ev (listParticipants s eventId) deliver)
                now), p.notifiedAt.isSome = true)
         then NOTIFIED else MATCHED)) := by
  have hrun := notifyPairings_run deliver now eventId s ev hfind hstatus
    hnodup
  have himp : ∀ p ∈ listPairingsForEvent s eventId,
      shouldNotify ev (listParticipants s eventId) deliver p = true →
        p.notifiedAt.isNone = true :=
    fun p _ hp => shouldNotify_isNone ev _ deliver p hp
  have hlist : ∀ sx : RepoState, sx.pairings = s.pairings.map
      (applyNotify (shouldNotify ev (listParticipants s eventId) deliver)
        now) →
      listPairingsForEvent sx eventId =
        (listPairingsForEvent s eventId).map
          (applyNotify
            (shouldNotify ev (listParticipants s eventId) deliver) now) := by
    intro sx hx
    unfold listPairingsForEvent
    rw [hx, List.filter_map]
    congr 1
    apply List.filter_congr
    intro p _
    rw [Function.comp_apply, applyNotify_eventId]
  have hmarked : ∀ p ∈ listPairingsForEvent s eventId,
      shouldNotify ev (listParticipants s eventId) deliver p = true →
        (applyNotify
          (shouldNotify ev (listParticipants s eventId) deliver) now
            p).notifiedAt = some now := by
    intro p _ hp
    simp [applyNotify, hp]
  have hunmarked : ∀ p ∈ listPairingsForEvent s eventId,
      shouldNotify ev (listParticipants s eventId) deliver p = false →
        (applyNotify
          (shouldNotify ev (listParticipants s eventId) deliver) now
            p).notifiedAt = p.notifiedAt := by
    intro p _ hp
    simp [applyNotify, hp]
  by_cases hadv : (decide ((listPairingsForEvent s eventId).length > 0) &&
      (((listPairingsForEvent s eventId).filter
          (fun p => p.notifiedAt.isNone)).length -
        ((listPairingsForEvent s eventId).filter
          (shouldNotify ev (listParticipants s eventId)
            deliver)).length == 0)) = true
  · rw [if_pos hadv] at hrun
    refine ⟨_, hrun, hlist _ rfl, hmarked, hunmarked, ?_⟩
    simp only [Bool.and_eq_true, decide_eq_true_eq, beq_iff_eq] at hadv
    obtain ⟨hlen, hsub⟩ := hadv
    have hne : listPairingsForEvent s eventId ≠ [] := by
      intro hempty
      rw [hempty] at hlen
      simp at hlen
    have hall := (outstanding_all_iff _ _ now himp).mp hsub
    have hf2 : findEventById
        { events := (repoUpdateEventStatus s eventId NOTIFIED).events
          participants := s.participants
          pairings := s.pairings.map
            (applyNotify
              (shouldNotify ev (listParticipants s eventId) deliver)
              now) } eventId = some { ev with status := NOTIFIED } :=
      findEventById_update s eventId NOTIFIED ev hfind
    rw [hf2, if_pos ⟨hne, hall⟩]
    rfl
  · rw [if_neg hadv] at hrun
    refine ⟨_, hrun, hlist _ rfl, hmarked, hunmarked, ?_⟩
    have hf2 : findEventById
        { events := s.events
          participants := s.participants
          pairings := s.pairings.map
            (applyNotify
              (shouldNotify ev (listParticipants s eventId) deliver)
              now) } eventId = some ev := hfind
    have hnotall : ¬ (listPairingsForEvent s eventId ≠ [] ∧
        (∀ p ∈ (listPairingsForEvent s eventId).map
          (applyNotify
            (shouldNotify ev (listParticipants s eventId) deliver)
            now), p.notifiedAt.isSome = true)) := by
      intro hcon
      obtain ⟨hne, hall⟩ := hcon
      apply hadv
      simp only [Bool.and_eq_true, decide_eq_true_eq, beq_iff_eq]
      refine ⟨?_, (outstanding_all_iff _ _ now himp).mpr hall⟩
      cases hps : listPairingsForEvent s eventId with
      | nil => exact absurd hps hne
      | cons a l => simp [hps]
    rw [hf2, if_neg hnotall]
    simp [hstatus]

/-- Closed instance for `notifyPairings_partial_failures`: one simulated
failure (the DM to `uC` fails) among three pairings; two are stamped, one
stays outstanding, and the event stays `MATCHED`. -/
theorem notifyPairings_partial_failures_witness :
    ∃ s' : RepoState,
      notifyPairings (fun u => u != "uC") 100 "E" sMatched = Except.ok
        (((listPairingsForEvent sMatched "E").filter
            (shouldNotify evMatched (listParticipants sMatched "E")
              (fun u => u != "uC"))).length, s') ∧
      listPairingsForEvent s' "E" =
        (listPairingsForEvent sMatched "E").map
          (applyNotify
            (shouldNotify evMatched (listParticipants sMatched "E")
              (fun u => u != "uC")) 100) ∧
      (∀ p ∈ listPairingsForEvent sMatched "E",
        shouldNotify evMatched (listParticipants sMatched "E")
            (fun u => u != "uC") p = true →
          (applyNotify
            (shouldNotify evMatched (listParticipants sMatched "E")
              (fun u => u != "uC")) 100 p).notifiedAt = some 100) ∧
      (∀ p ∈ listPairingsForEvent sMatched "E",
        shouldNotify evMatched (listParticipants sMatched "E")
            (fun u => u != "uC") p = false →
          (applyNotify
            (shouldNotify evMatched (listParticipants sMatched "E")
              (fun u => u != "uC")) 100 p).notifiedAt = p.notifiedAt) ∧
      ((findEventById s' "E").map (fun e => e.status) = some
        (if listPairingsForEvent sMatched "E" ≠ [] ∧
            (∀ p ∈ (listPairingsForEvent sMatched "E").map
              (applyNotify
                (shouldNotify evMatched (listParticipants sMatched "E")
                  (fun u => u != "uC")) 100), p.notifiedAt.isSome = true)
         then NOTIFIED else MATCHED)) :=
  notifyPairings_partial_failures (fun u => u != "uC") 100 "E" sMatched
    evMatched (by decide) (by decide) (by decide)

/-- **C4 (counterexample).** After a fully successful first run the event
is `NOTIFIED`, so the second consecutive `notifyPairings` call throws the
status-conflict error instead of returning `0` as the claim states. -/
theorem notify_rerun_counterexample :
    (notifyPairings (fun _ => true) 100 "E" sMatched).map (fun r => r.1) =
      Except.ok 3 ∧
    (notifyPairings (fun _ => true) 100 "E" sMatched).bind
      (fun r => notifyPairings (fun _ => true) 200 "E" r.2) =
      Except.error ("Cannot notify pairings for event with status: "
        ++ statusName NOTIFIED) :=
  ⟨by decide, by decide⟩

/-- **C4 (amended).** A pairing whose `notifiedAt` is set is never
attempted again — a batch of fully notified pairings yields zero DMs and an
empty success list — and after a fully successful run that leaves no
outstanding pairing on a non-empty set the event advances to `NOTIFIED`,
so a second consecutive run fails with the status-conflict error (sending
zero DMs) rather than returning `0`. -/
theorem notify_no_reattempt :
    (∀ (event : RatmasEvent) (pairings : List RatmasPairing)
       (participants : List RatmasParticipant) (deliver : String → Bool)
       (now : Nat),
       (∀ p ∈ pairings, p.notifiedAt.isSome = true) →
       notifyAllPairings event pairings participants deliver now =
         (0, [])) ∧
    (∀ (deliver deliver2 : String → Bool) (now now2 : Nat)
       (eventId : String) (s : RepoState) (ev : RatmasEvent),
       findEventById s eventId = some ev → ev.status = MATCHED →
       (s.pairings.map (fun p => p.id)).Nodup →
       listPairingsForEvent s eventId ≠ [] →
       (∀ p ∈ listPairingsForEvent s eventId, p.notifiedAt = none →
         shouldNotify ev (listParticipants s eventId) deliver p = true) →
       ∃ (n : Nat) (s2 : RepoState),
         notifyPairings deliver now eventId s = Except.ok (n, s2) ∧
         notifyPairings deliver2 now2 eventId s2 = Except.error
           ("Cannot notify pairings for event with status: "
             ++ statusName NOTIFIED)) := by
  constructor
  · intro event pairings participants deliver now hall
    rw [notifyAllPairings_eq]
    have hnil : pairings.filter
        (shouldNotify event participants deliver) = [] := by
      apply List.filter_eq_nil_iff.mpr
      intro p hp hsh
      have hN := shouldNotify_isNone event participants deliver p hsh
      have hS := hall p hp
      cases hx : p.notifiedAt <;> simp_all
    rw [hnil]
    rfl
  · intro deliver deliver2 now now2 eventId s ev hfind hstatus hnodup hne
      hdel
    have hrun := notifyPairings_run deliver now eventId s ev hfind hstatus
      hnodup
    have himp : ∀ p ∈ listPairingsForEvent s eventId,
        shouldNotify ev (listParticipants s eventId) deliver p = true →
          p.notifiedAt.isNone = true :=
      fun p _ hp => shouldNotify_isNone ev _ deliver p hp
    have hrev : ∀ p ∈ listPairingsForEvent s eventId,
        p.notifiedAt.isNone = true →
          shouldNotify ev (listParticipants s eventId) deliver p = true :=
      fun p hp hN => hdel p hp (Option.isNone_iff_eq_none.mp hN)
    have hcnt := (countP_eq_iff_pointwise
      (shouldNotify ev (listParticipants s eventId) deliver)
      (fun p => p.notifiedAt.isNone)
      (listPairingsForEvent s eventId) himp).mpr hrev
    have hadv : (decide ((listPairingsForEvent s eventId).length > 0) &&
        (((listPairingsForEvent s eventId).filter
            (fun p => p.notifiedAt.isNone)).length -
          ((listPairingsForEvent s eventId).filter
            (shouldNotify ev (listParticipants s eventId)
              deliver)).length == 0)) = true := by
      simp only [Bool.and_eq_true, decide_eq_true_eq, beq_iff_eq]
      refine ⟨List.length_pos.mpr hne, ?_⟩
      rw [← List.countP_eq_length_filter, ← List.countP_eq_length_filter]
      omega
    rw [if_pos hadv] at hrun
    refine ⟨_, _, hrun, ?_⟩
    have hf2 : findEventById
        { events := (repoUpdateEventStatus s eventId NOTIFIED).events
          participants := s.participants
          pairings := s.pairings.map
            (applyNotify
              (shouldNotify ev (listParticipants s eventId) deliver)
              now) } eventId = some { ev with status := NOTIFIED } :=
      findEventById_update s eventId NOTIFIED ev hfind
    simp [notifyPairings, hf2]

/-- Closed instance for `notify_no_reattempt`: after the fully successful
run on the matched fixture, the repeat invocation is rejected. -/
theorem notify_no_reattempt_witness :
    ∃ (n : Nat) (s2 : RepoState),
      notifyPairings (fun _ => true) 100 "E" sMatched =
        Except.ok (n, s2) ∧
      notifyPairings (fun _ => true) 200 "E" s2 = Except.error
        ("Cannot notify pairings for event with status: "
          ++ statusName NOTIFIED) :=
  notify_no_reattempt.2 (fun _ => true) (fun _ => true) 100 200 "E"
    sMatched evMatched (by decide) (by decide) (by decide) (by decide)
    (by decide)

/-- Spec of the retry loop of `derangement`: each attempt is a Fisher–Yates
shuffle; the loop returns `none` when the bound is exhausted, or a
permutation with no fixed point against the input. -/
theorem derangementLoop_spec {α : Type} [DecidableEq α]
    (rand : Nat → Nat → Nat) (arr : List α) :
    ∀ (fuel t : Nat),
    derangementLoop rand arr fuel t = none ∨
    ∃ out, derangementLoop rand arr fuel t = some out ∧ out.Perm arr ∧
      ∀ i, i < arr.length → out.get? i ≠ arr.get? i
  | 0, _ => Or.inl rfl
  | Nat.succ n, t => by
    by_cases hall : ((List.range arr.length).all
        (fun i => decide ((derangementAttempt (rand t) arr).get? i ≠
          arr.get? i))) = true
    · right
      refine ⟨derangementAttempt (rand t) arr, ?_,
        fisherYatesFrom_perm (rand t) (arr.length - 1) arr, ?_⟩
      · simp only [derangementLoop, hall, if_true]
      · intro i hi
        have := List.all_eq_true.mp hall i (List.mem_range.mpr hi)
        simpa using this
    · rcases derangementLoop_spec rand arr n (t + 1) with h | ⟨out, hout,
        hperm, hfix⟩
      · left
        simp only [derangementLoop]
        rw [if_neg hall]
        exact h
      · right
        refine ⟨out, ?_, hperm, hfix⟩
        simp only [derangementLoop]
        rw [if_neg hall]
        exact hout

/-- **C5 (counterexample).** With the identity shuffle — which fixes every
position, so no shuffle-and-check loop could ever find a fixed-point-free
order — the pairing operation does not fail with a derangement error: it
succeeds and creates 3 pairings. -/
theorem derangement_retry_counterexample :
    idShuffle (listParticipants sLocked "E") =
      listParticipants sLocked "E" ∧
    generatePairings idShuffle fixtureIds "E" sLocked = Except.ok
      ({ success := true, pairingsCreated := 3, error := none },
        sLockedAfter) :=
  ⟨rfl, by decide⟩

/-- **C5 (amended).** The standalone `derangement` function of
`src/match.ts` is a bounded repeated-shuffle-and-check loop: it returns
`none` on lists of at most one element, and otherwise either `none` when
the attempt bound (default 1000) is exhausted or a fixed-point-free
permutation of its input; the pairing operation, however, never invokes
it — for 3 or more participants `createPairings` always succeeds with the
single-cycle construction and has no derangement failure mode. -/
theorem derangement_bounded_retry :
    (∀ {α : Type} [DecidableEq α] (rand : Nat → Nat → Nat)
       (arr : List α) (maxTries : Nat),
       (arr.length ≤ 1 → derangement rand arr maxTries = none) ∧
       (derangement rand arr maxTries = none ∨
         ∃ out, derangement rand arr maxTries = some out ∧
           out.Perm arr ∧
           ∀ i, i < arr.length → out.get? i ≠ arr.get? i)) ∧
    (∀ (eventId : String) (participants : List RatmasParticipant)
       (shuffleFn : List RatmasParticipant → List RatmasParticipant)
       (newId : Nat → String),
       3 ≤ participants.length →
       createPairings eventId participants shuffleFn newId =
         Except.ok (cyclePairings eventId newId
           (shuffleFn participants))) := by
  constructor
  · intro α _ rand arr maxTries
    constructor
    · intro h
      unfold derangement
      rw [if_pos h]
    · by_cases h : arr.length ≤ 1
      · left
        unfold derangement
        rw [if_pos h]
      · unfold derangement
        rw [if_neg h]
        exact derangementLoop_spec rand arr maxTries 0
  · intro eventId participants shuffleFn newId h3
    exact createPairings_ok eventId participants shuffleFn newId h3

/-- Closed instance for `derangement_bounded_retry`: a singleton list gets
`none`, and three fixture participants always get a pairing set. -/
theorem derangement_bounded_retry_witness :
    derangement (fun _ _ => 0) ([42] : List Nat) 5 = none ∧
    createPairings "E" [pA, pB, pC] idShuffle fixtureIds =
      Except.ok (cyclePairings "E" fixtureIds (idShuffle [pA, pB, pC])) :=
  ⟨(derangement_bounded_retry.1 (fun _ _ => 0) [42] 5).1 (by decide),
   derangement_bounded_retry.2 "E" [pA, pB, pC] idShuffle fixtureIds
     (by decide)⟩

/-- `EventsWF` only looks at the event table. -/
theorem EventsWF_congr (s s' : RepoState) (h : s'.events = s.events)
    (hwf : EventsWF s) : EventsWF s' := by
  obtain ⟨h1, h2⟩ := hwf
  constructor
  · rw [h]
    exact h1
  · intro g
    unfold activeCount
    rw [h]
    exact h2 g

/-- An allowed transition into an active status starts from an active
status (terminal states allow no transition at all). -/
theorem active_transition (c n : RatmasEventStatus)
    (hval : validateStatusTransition c n = Except.ok ())
    (hn : ACTIVE_STATUSES.contains n = true) :
    ACTIVE_STATUSES.contains c = true := by
  revert hval hn
  revert c n
  decide

/-- A validated status write keeps the event table well-formed and no
event's guild changes. -/
theorem EventsWF_update (s : RepoState) (eventId : String)
    (st : RatmasEventStatus) (ev : RatmasEvent)
    (hwf : EventsWF s)
    (hfind : findEventById s eventId = some ev)
    (hval : validateStatusTransition ev.status st = Except.ok ()) :
    EventsWF (repoUpdateEventStatus s eventId st) ∧
    (repoUpdateEventStatus s eventId st).events.map (fun e => e.guildId) =
      s.events.map (fun e => e.guildId) := by
  obtain ⟨hnodup, hcount⟩ := hwf
  have hmemev : ev ∈ s.events := by
    have h := hfind
    unfold findEventById at h
    exact List.mem_of_find?_eq_some h
  have hevid : ev.id = eventId := findEventById_id s eventId ev hfind
  have hkey : ∀ (g : String), ∀ e ∈ s.events,
      ((fun x : RatmasEvent => x.guildId == g &&
          ACTIVE_STATUSES.contains x.status) ∘
        (fun x => if x.id == eventId then { x with status := st } else x))
          e = true →
      (e.guildId == g && ACTIVE_STATUSES.contains e.status) = true := by
    intro g e he hpe
    rw [Function.comp_apply] at hpe
    by_cases hid : (e.id == eventId) = true
    · have heq : e = ev := by
        apply List.inj_on_of_nodup_map hnodup he hmemev
        rw [hevid]
        simpa using hid
      rw [if_pos hid] at hpe
      simp only [Bool.and_eq_true] at hpe ⊢
      rw [heq] at hpe ⊢
      exact ⟨hpe.1, active_transition ev.status st hval hpe.2⟩
    · rw [if_neg hid] at hpe
      exact hpe
  constructor
  · constructor
    · unfold repoUpdateEventStatus
      simp only [List.map_map]
      have hcomp : ((fun e : RatmasEvent => e.id) ∘ (fun e =>
          if e.id == eventId then { e with status := st } else e)) =
          (fun e : RatmasEvent => e.id) := by
        funext e
        by_cases hid : e.id = eventId <;> simp [hid]
      rw [hcomp]
      exact hnodup
    · intro g
      unfold activeCount repoUpdateEventStatus
      simp only []
      rw [← List.countP_eq_length_filter, List.countP_map]
      have h2 := List.countP_mono_left (hkey g)
      have h3 := hcount g
      unfold activeCount at h3
      rw [← List.countP_eq_length_filter] at h3
      omega
  · unfold repoUpdateEventStatus
    simp only [List.map_map]
    have hcomp : ((fun e : RatmasEvent => e.guildId) ∘ (fun e =>
        if e.id == eventId then { e with status := st } else e)) =
        (fun e : RatmasEvent => e.guildId) := by
      funext e
      by_cases hid : e.id = eventId <;> simp [hid]
    rw [hcomp]

/-- A successful `updateEventStatus` decomposed: the event was found, the
transition was validated, and the new state is exactly the status write. -/
theorem updateEventStatus_ok_cases (eventId : String)
    (st : RatmasEventStatus) (s : RepoState) (r : RatmasEvent)
    (s' : RepoState)
    (h : updateEventStatus eventId st s = Except.ok (r, s')) :
    ∃ ev, findEventById s eventId = some ev ∧
      validateStatusTransition ev.status st = Except.ok () ∧
      s' = repoUpdateEventStatus s eventId st := by
  unfold updateEventStatus at h
  split at h
  · exact absurd h (by simp)
  · next ev hf =>
    split at h
    · exact absurd h (by simp)
    · next u hv =>
      refine ⟨ev, hf, ?_, ?_⟩
      · cases u
        exact hv
      · exact ((Prod.mk.inj (Except.ok.inj h)).2).symm

/-- Appending a fresh `OPEN` event for a guild with no active event keeps
the table well-formed. -/
theorem EventsWF_append_open (s : RepoState) (newEv : RatmasEvent)
    (hwf : EventsWF s)
    (hfresh : ¬ newEv.id ∈ s.events.map (fun e => e.id))
    (_hstat : newEv.status = OPEN)
    (hnone : findActiveEventByGuild s newEv.guildId = none) :
    EventsWF { s with events := s.events ++ [newEv] } := by
  obtain ⟨hnodup, hcount⟩ := hwf
  have hnoneAll : ∀ e ∈ s.events,
      ¬ ((e.guildId == newEv.guildId &&
          ACTIVE_STATUSES.contains e.status) = true) := by
    intro e he
    unfold findActiveEventByGuild at hnone
    have := List.find?_eq_none.mp hnone e he
    simpa using this
  constructor
  · simp only [List.map_append, List.map_cons, List.map_nil]
    rw [List.nodup_append]
    refine ⟨hnodup, List.nodup_singleton _, ?_⟩
    intro a ha hb
    simp only [List.mem_singleton] at hb
    rw [hb] at ha
    exact hfresh ha
  · intro g
    unfold activeCount
    simp only [List.filter_append, List.length_append]
    by_cases hg : (newEv.guildId == g) = true
    · have hgeq : newEv.guildId = g := by simpa using hg
      have hzero : (s.events.filter (fun e =>
          e.guildId == g && ACTIVE_STATUSES.contains e.status)).length
            = 0 := by
        rw [List.length_eq_zero]
        apply List.filter_eq_nil_iff.mpr
        intro e he hc
        apply hnoneAll e he
        rw [hgeq]
        exact hc
      have hone : (([newEv].filter (fun e =>
          e.guildId == g && ACTIVE_STATUSES.contains e.status)).length)
            ≤ 1 := by
        have hle := List.length_filter_le (fun e : RatmasEvent =>
          e.guildId == g && ACTIVE_STATUSES.contains e.status) [newEv]
        simpa using hle
      omega
    · have hzero : (([newEv].filter (fun e =>
          e.guildId == g && ACTIVE_STATUSES.contains e.status)).length)
            = 0 := by
        simp [List.filter, hg]
      have := hcount g
      unfold activeCount at this
      omega

/-- A successful `createEvent` (with the database generating a fresh id)
keeps the event table well-formed. -/
theorem EventsWF_create (newId : String) (options : CreateEventOptions)
    (s : RepoState) (r : RatmasEvent) (s' : RepoState)
    (hwf : EventsWF s)
    (hfresh : ¬ newId ∈ s.events.map (fun e => e.id))
    (h : createEvent newId options s = Except.ok (r, s')) :
    EventsWF s' := by
  unfold createEvent at h
  split at h
  · exact absurd h (by simp)
  · next hnone =>
    split at h
    · exact absurd h (by simp)
    · split at h
      · exact absurd h (by simp)
      · split at h
        · exact absurd h (by simp)
        · have hs' : s' = (repoCreateEvent s newId options).2 :=
            ((Prod.mk.inj (Except.ok.inj h)).2).symm
          rw [hs']
          exact EventsWF_append_open s
            { id := newId
              guildId := options.guildId
              status := OPEN
              config :=
                { ratmasRoleId := options.ratmasRoleId
                  eventStartDate := options.eventStartDate
                  purchaseDeadline := options.purchaseDeadline
                  revealDate := options.revealDate
                  timezone := options.timezone
                  announcementChannelId := options.announcementChannelId } }
            hwf hfresh rfl hnone

/-- A successful `generatePairings` either leaves the event table alone or
performs one validated status write. -/
theorem generatePairings_events_cases
    (shuffleFn : List RatmasParticipant → List RatmasParticipant)
    (newId : Nat → String) (eventId : String) (s : RepoState)
    (r : PairingResult) (s' : RepoState)
    (h : generatePairings shuffleFn newId eventId s = Except.ok (r, s')) :
    s'.events = s.events ∨
    ∃ (ev : RatmasEvent) (st : RatmasEventStatus) (s1 : RepoState),
      s1.events = s.events ∧ findEventById s1 eventId = some ev ∧
      validateStatusTransition ev.status st = Except.ok () ∧
      s' = repoUpdateEventStatus s1 eventId st := by
  simp only [generatePairings] at h
  split at h
  · left
    rw [← (Prod.mk.inj (Except.ok.inj h)).2]
  · split at h
    · left
      rw [← (Prod.mk.inj (Except.ok.inj h)).2]
    · split at h
      · left
        rw [← (Prod.mk.inj (Except.ok.inj h)).2]
      · split at h
        · exact absurd h (by simp)
        · next L hL =>
          split at h
          · exact absurd h (by simp)
          · next a s2 hupd =>
            right
            obtain ⟨ev2, hf2, hv2, hs2⟩ :=
              updateEventStatus_ok_cases _ _ _ _ _ hupd
            refine ⟨ev2, MATCHED, replacePairings s eventId L, rfl, hf2,
              hv2, ?_⟩
            rw [← (Prod.mk.inj (Except.ok.inj h)).2]
            exact hs2

/-- A successful `notifyPairings` either leaves the event table alone or
performs one validated status write. -/
theorem notifyPairings_events_cases (deliver : String → Bool) (now : Nat)
    (eventId : String) (s : RepoState) (r : Nat) (s' : RepoState)
    (h : notifyPairings deliver now eventId s = Except.ok (r, s')) :
    s'.events = s.events ∨
    ∃ (ev : RatmasEvent) (st : RatmasEventStatus) (s1 : RepoState),
      s1.events = s.events ∧ findEventById s1 eventId = some ev ∧
      validateStatusTransition ev.status st = Except.ok () ∧
      s' = repoUpdateEventStatus s1 eventId st := by
  simp only [notifyPairings] at h
  split at h
  · exact absurd h (by simp)
  · split at h
    · exact absurd h (by simp)
    · split at h
      · next hcond =>
        split at h
        · exact absurd h (by simp)
        · next a s2 hupd =>
          right
          obtain ⟨ev2, hf2, hv2, hs2⟩ :=
            updateEventStatus_ok_cases _ _ _ _ _ hupd
          refine ⟨ev2, NOTIFIED, _, ?_, hf2, hv2, ?_⟩
          · split <;> rfl
          · rw [← (Prod.mk.inj (Except.ok.inj h)).2]
            exact hs2
      · left
        rw [← (Prod.mk.inj (Except.ok.inj h)).2]
        split <;> rfl

/-- **C8.** At most one active (non-terminal) event per guild:
`createEvent` fails whenever the guild already has an event whose status is
in `ACTIVE_STATUSES`, and every operation preserves the well-formedness of
the event table (`EventsWF`: unique ids, at most one active event per
guild); status writes go through the transition check, and no operation
changes an event's guild. -/
theorem one_active_event_invariant :
    (∀ (newId : String) (options : CreateEventOptions) (s : RepoState)
       (ev : RatmasEvent),
       findActiveEventByGuild s options.guildId = some ev →
       createEvent newId options s = Except.error
         ("Guild already has active event (status: "
           ++ statusName ev.status ++ ")")) ∧
    (∀ (newId : String) (options : CreateEventOptions) (s : RepoState)
       (r : RatmasEvent) (s' : RepoState),
       EventsWF s → ¬ newId ∈ s.events.map (fun e => e.id) →
       createEvent newId options s = Except.ok (r, s') → EventsWF s') ∧
    (∀ (eventId : String) (st : RatmasEventStatus) (s : RepoState)
       (r : RatmasEvent) (s' : RepoState),
       EventsWF s → updateEventStatus eventId st s = Except.ok (r, s') →
       EventsWF s' ∧ s'.events.map (fun e => e.guildId) =
         s.events.map (fun e => e.guildId)) ∧
    (∀ (shuffleFn : List RatmasParticipant → List RatmasParticipant)
       (newId : Nat → String) (eventId : String) (s : RepoState)
       (r : PairingResult) (s' : RepoState),
       EventsWF s →
       generatePairings shuffleFn newId eventId s = Except.ok (r, s') →
       EventsWF s' ∧ s'.events.map (fun e => e.guildId) =
         s.events.map (fun e => e.guildId)) ∧
    (∀ (deliver : String → Bool) (now : Nat) (eventId : String)
       (s : RepoState) (r : Nat) (s' : RepoState),
       EventsWF s →
       notifyPairings deliver now eventId s = Except.ok (r, s') →
       EventsWF s' ∧ s'.events.map (fun e => e.guildId) =
         s.events.map (fun e => e.guildId)) ∧
    (∀ (newId eventId userId displayName : String)
       (wishlistUrl : Option String) (s : RepoState)
       (r : RatmasParticipant) (s' : RepoState),
       addParticipant newId eventId userId displayName wishlistUrl s =
         Except.ok (r, s') → s'.events = s.events) ∧
    (∀ (eventId userId : String) (s s' : RepoState),
       removeParticipant eventId userId s = Except.ok s' →
       s'.events = s.events) ∧
    (∀ (participantId : String) (dn : Option String)
       (wl : Option (Option String)) (s : RepoState)
       (r : RatmasParticipant) (s' : RepoState),
       updateParticipant participantId dn wl s = Except.ok (r, s') →
       s'.events = s.events) := by
  have hcases : ∀ (eventId2 : String) (s s' : RepoState),
      (s'.events = s.events ∨
        ∃ (ev : RatmasEvent) (st : RatmasEventStatus) (s1 : RepoState),
          s1.events = s.events ∧ findEventById s1 eventId2 = some ev ∧
          validateStatusTransition ev.status st = Except.ok () ∧
          s' = repoUpdateEventStatus s1 eventId2 st) →
      EventsWF s →
      EventsWF s' ∧ s'.events.map (fun e => e.guildId) =
        s.events.map (fun e => e.guildId) := by
    intro eventId2 s s' hc hwf
    rcases hc with he | ⟨ev, st, s1, h1, hf, hv, hs⟩
    · exact ⟨EventsWF_congr s s' he hwf, by rw [he]⟩
    · have hwf1 : EventsWF s1 := EventsWF_congr s s1 h1 hwf
      have hupd := EventsWF_update s1 eventId2 st ev hwf1 hf hv
      rw [hs]
      refine ⟨hupd.1, ?_⟩
      rw [hupd.2, h1]
  refine ⟨?_, ?_, ?_, ?_, ?_, ?_, ?_, ?_⟩
  · intro newId options s ev hfind
    unfold createEvent
    rw [hfind]
  · intro newId options s r s' hwf hfresh h
    exact EventsWF_create newId options s r s' hwf hfresh h
  · intro eventId st s r s' hwf h
    obtain ⟨ev, hf, hv, hs⟩ := updateEventStatus_ok_cases _ _ _ _ _ h
    exact hcases eventId s s' (Or.inr ⟨ev, st, s, rfl, hf, hv, hs⟩) hwf
  · intro shuffleFn newId eventId s r s' hwf h
    exact hcases eventId s s'
      (generatePairings_events_cases shuffleFn newId eventId s r s' h) hwf
  · intro deliver now eventId s r s' hwf h
    exact hcases eventId s s'
      (notifyPairings_events_cases deliver now eventId s r s' h) hwf
  · intro newId eventId userId displayName wishlistUrl s r s' h
    unfold addParticipant at h
    split at h
    · exact absurd h (by simp)
    · split at h
      · exact absurd h (by simp)
      · split at h
        · exact absurd h (by simp)
        · rw [← (Prod.mk.inj (Except.ok.inj h)).2]
  · intro eventId userId s s' h
    unfold removeParticipant at h
    split at h
    · exact absurd h (by simp)
    · split at h
      · exact absurd h (by simp)
      · split at h
        · exact absurd h (by simp)
        · rw [← Except.ok.inj h]
          rfl
  · intro participantId dn wl s r s' h
    simp only [updateParticipant] at h
    split at h
    · exact absurd h (by simp)
    · split at h
      · exact absurd h (by simp)
      · rw [← (Prod.mk.inj (Except.ok.inj h)).2]

/-- Closed instance for `one_active_event_invariant`: guild `G` already has
the locked event, so a second `createEvent` is rejected; and the locked
fixture's table stays well-formed through a `LOCKED → OPEN` revert. -/
theorem one_active_event_invariant_witness :
    (findActiveEventByGuild sLocked optsG.guildId = some evLocked ∧
      createEvent "E2" optsG sLocked = Except.error
        ("Guild already has active event (status: "
          ++ statusName evLocked.status ++ ")")) ∧
    (EventsWF sLocked ∧
      ∃ (r : RatmasEvent) (s' : RepoState),
        updateEventStatus "E" OPEN sLocked = Except.ok (r, s') ∧
        EventsWF s') := by
  refine ⟨⟨by decide, one_active_event_invariant.1 "E2" optsG sLocked
    evLocked (by decide)⟩, ⟨?_, ?_⟩⟩
  · constructor
    · decide
    · intro g
      have : activeCount sLocked g =
          (sLocked.events.filter (fun e =>
            e.guildId == g && ACTIVE_STATUSES.contains e.status)).length :=
        rfl
      rw [this]
      simp [sLocked, evLocked, List.filter]
      split <;> simp
  · refine ⟨{ evLocked with status := OPEN },
      repoUpdateEventStatus sLocked "E" OPEN, by decide, ?_⟩
    exact (one_active_event_invariant.2.2.1 "E" OPEN sLocked
      { evLocked with status := OPEN }
      (repoUpdateEventStatus sLocked "E" OPEN)
      ⟨by decide, fun g => by
        have : activeCount sLocked g =
            (sLocked.events.filter (fun e =>
              e.guildId == g &&
                ACTIVE_STATUSES.contains e.status)).length := rfl
        rw [this]
        simp [sLocked, evLocked, List.filter]
        split <;> simp⟩
      (by decide)).1

end Ratmas
